import Mathlib

/-!
CANOpenShell: the synchronous SDO bridge, the node-info sequencer and the command dispatcher.

A shallow embedding of `CANOpenShell.c`.  The shell's globals are the fields of `Shell`;
every call into the CANopen stack, the mutex, the semaphores, `sleep` and every `printf` is
recorded, in program order, in `Shell.trace`.  Whatever the program receives from outside
(the values returned by the stack, the clock, the outcome of a blocking wait, the contents of
uninitialised locals) is an explicit argument of the function that consumes it.
-/

namespace CANOpenShell

/-! ## Machine integers -/

/-- Conversion of a C `int` to `UNS8`. -/
def toUNS8 (x : Int) : Nat := (x % 256).toNat

/-- Conversion of a C `int` to `UNS16`. -/
def toUNS16 (x : Int) : Nat := (x % 65536).toNat

/-- Conversion of a C `int` to `UNS32`. -/
def toUNS32 (x : Int) : Nat := (x % 4294967296).toNat

/-- The `int` whose 32-bit pattern is `n` (two's complement). -/
def toInt32 (n : Nat) : Int :=
  if n % 4294967296 < 2147483648 then (n % 4294967296 : Nat) else ((n % 4294967296 : Nat) : Int) - 4294967296

/-! ## Constants declared in the stack's headers -/

/-- Values of the macros the shell takes from `canfestival.h`; their definitions are not part
of this source file, so they are parameters of the model. -/
structure Consts where
  SDO_FINISHED : Nat
  visible_string : Nat
  deriving DecidableEq, Repr

/-! ## Events -/

/-- The completion callbacks the shell hands to the stack. -/
inductive Callback
  | CheckReadInfoSDO
  | CheckReadSDO
  | SDO_read_callback
  | CheckWriteSDO
  | SDO_write_callback
  deriving DecidableEq, Repr

/-- The two semaphores `Read_sem` and `Write_sem`. -/
inductive Gate
  | Read_sem
  | Write_sem
  deriving DecidableEq, Repr

/-- The buffer a write request points at: a 32-bit word (`&data`) or a character string. -/
inductive Payload
  | word (v : Nat)
  | text (s : List Char)
  deriving DecidableEq, Repr

/-- The command specifier of `masterSendNMTstateChange`. -/
inductive NMT
  | NMT_Start_Node
  | NMT_Stop_Node
  | NMT_Reset_Node
  deriving DecidableEq, Repr

/-- The lines the program prints, one constructor per `printf`/`perror` format. -/
inductive Msg
  | hashes
  | infoTitle (nodeid : Nat)
  | infoFailed (nodeid abortCode : Nat)
  | deviceType (data : Nat)
  | vendorID (data : Nat)
  | productCode (data : Nat)
  | revisionNumber (data : Nat)
  | readValue (data : Nat)
  | resultFailed (nodeid abortCode : Nat)
  | sendDataOK
  | readTitle
  | writeTitle
  | nodeIdLine (v : Int)
  | indexLine (v : Int)
  | subIndexLine (v : Int)
  | sizeLine (v : Int)
  | dataLine (v : Int)
  | wrongCommand (sdo : List Char)
  | timedOut
  | perrorSemTimedwait
  | perrorClockGettime
  | status3 (v : Nat)
  | waitForBootup
  | invalidLoad
  | readData (bytes : List Nat)
  deriving DecidableEq, Repr

/-- Everything the shell does that is visible outside its own variables. -/
inductive Event
  | EnterMutex
  | LeaveMutex
  | readNetworkDictCallback (nodeId index subIndex dataType : Nat) (cb : Callback)
      (useBlockMode : Nat)
  | writeNetworkDictCallBack (nodeId index subIndex count dataType : Nat) (data : Payload)
      (cb : Callback) (useBlockMode : Nat)
  | getReadResultNetworkDict (nodeId : Nat)
  | getWriteResultNetworkDict (nodeId : Nat)
  | closeSDOtransfer (nodeId : Nat)
  | masterSendNMTstateChange (nodeId : Nat) (cs : NMT)
  | stopSYNC
  | startSYNC
  | setStateOperational
  | LoadCanDriver (path : List Char)
  | canOpen (busname baudrate : List Char)
  | setNodeId (nodeId : Nat)
  | StartTimerLoop
  | clock_gettime
  | sem_timedwait (g : Gate)
  | sem_post (g : Gate)
  | SleepFunction (second : Int)
  | usleep
  | systemClear
  | help_menu
  | printf (m : Msg)
  | exitFailure
  | SDO_read
  | SDO_write
  deriving DecidableEq, Repr

/-- A read request as the stack receives it. -/
structure ReadRequest where
  nodeId : Nat
  index : Nat
  subIndex : Nat
  dataType : Nat
  callback : Callback
  useBlockMode : Nat
  deriving DecidableEq, Repr

/-- A write request as the stack receives it. -/
structure WriteRequest where
  nodeId : Nat
  index : Nat
  subIndex : Nat
  count : Nat
  dataType : Nat
  data : Payload
  callback : Callback
  useBlockMode : Nat
  deriving DecidableEq, Repr

/-- The read request an event submits, if it submits one. -/
def Event.asRead : Event → Option ReadRequest
  | .readNetworkDictCallback n i si dt cb bm => some ⟨n, i, si, dt, cb, bm⟩
  | _ => none

/-- The write request an event submits, if it submits one. -/
def Event.asWrite : Event → Option WriteRequest
  | .writeNetworkDictCallBack n i si c dt d cb bm => some ⟨n, i, si, c, dt, d, cb, bm⟩
  | _ => none

/-- The read requests of a trace, in submission order. -/
def readRequests (t : List Event) : List ReadRequest := t.filterMap Event.asRead

/-- The write requests of a trace, in submission order. -/
def writeRequests (t : List Event) : List WriteRequest := t.filterMap Event.asWrite

/-- The number of `closeSDOtransfer` calls of a trace. -/
def closeCount (t : List Event) : Nat :=
  (t.filter fun e => match e with
    | .closeSDOtransfer _ => true
    | _ => false).length

/-! ## State -/

/-- A `struct timespec`. -/
structure Timespec where
  tv_sec : Int
  tv_nsec : Int
  deriving DecidableEq, Repr

/-- The globals of `CANOpenShell.c`, the counts of its two semaphores, and the trace. -/
structure Shell where
  get_info_step : Int
  CurrentNode : Int
  SDO_read_callback_result : Nat
  SDO_read_callback_abortCode : Nat
  SDO_read_data : List Nat
  SDO_read_data_size : Nat
  SDO_write_callback_result : Nat
  SDO_write_callback_abortCode : Nat
  Read_sem : Nat
  Write_sem : Nat
  Read_sem_ts : Timespec
  Write_sem_ts : Timespec
  Status3 : Nat
  LibraryPath : List Char
  BoardBusName : List Char
  BoardBaudRate : List Char
  masterOD : Bool
  trace : List Event
  deriving DecidableEq, Repr

/-- Append one event to the trace. -/
def Shell.emit (s : Shell) (e : Event) : Shell := { s with trace := s.trace ++ [e] }

/-- The state `main` has built when it enters its loop: semaphores initialised to 0,
`CurrentNode = 3`, `get_info_step = 0`, default library path and bus parameters. -/
def Shell.init : Shell where
  get_info_step := 0
  CurrentNode := 3
  SDO_read_callback_result := 0
  SDO_read_callback_abortCode := 0
  SDO_read_data := []
  SDO_read_data_size := 0
  SDO_write_callback_result := 0
  SDO_write_callback_abortCode := 0
  Read_sem := 0
  Write_sem := 0
  Read_sem_ts := ⟨0, 0⟩
  Write_sem_ts := ⟨0, 0⟩
  Status3 := 0
  LibraryPath := "/usr/lib/libcanfestival_can_peak_linux.so".toList
  BoardBusName := ['0']
  BoardBaudRate := ['1', 'M']
  masterOD := true
  trace := []

/-! ## What the stack reports to a completion callback -/

/-- The answer of `getReadResultNetworkDict` / `getWriteResultNetworkDict` for one transfer:
the returned status, the abort code and (for a read) the bytes copied to the caller. -/
structure Completion where
  result : Nat
  abortCode : Nat
  data : List Nat
  deriving DecidableEq, Repr

/-- The `UNS32` a little-endian host sees after the stack copied `bytes` over a zeroed word. -/
def wordOf (bytes : List Nat) : Nat :=
  ((bytes.take 4).foldr (fun b acc => b % 256 + 256 * acc) 0)

/-! ## Node-info sequencer -/

/-- `GetSlaveNodeInfo`: `switch(++get_info_step)`.  `get_info_step` is a C `int`; the model
keeps it unbounded (an increment at `INT_MAX` is undefined in C). -/
def GetSlaveNodeInfo (nodeid : Nat) (s : Shell) : Shell :=
  let s := { s with get_info_step := s.get_info_step + 1 }
  if s.get_info_step = 1 then
    ((((s.emit (.printf .hashes)).emit (.printf (.infoTitle nodeid))).emit
      (.printf .hashes)).emit (.readNetworkDictCallback nodeid 0x1000 0x00 0 .CheckReadInfoSDO 0))
  else if s.get_info_step = 2 then
    s.emit (.readNetworkDictCallback nodeid 0x1018 0x01 0 .CheckReadInfoSDO 0)
  else if s.get_info_step = 3 then
    s.emit (.readNetworkDictCallback nodeid 0x1018 0x02 0 .CheckReadInfoSDO 0)
  else if s.get_info_step = 4 then
    s.emit (.readNetworkDictCallback nodeid 0x1018 0x03 0 .CheckReadInfoSDO 0)
  else if s.get_info_step = 5 then
    { s with get_info_step := 0 }
  else s

/-- `CheckReadInfoSDO`, the completion callback of the sequencer's reads; `c` is what
`getReadResultNetworkDict` reports for the transfer. -/
def CheckReadInfoSDO (K : Consts) (c : Completion) (nodeid : Nat) (s : Shell) : Shell :=
  let s := s.emit (.getReadResultNetworkDict nodeid)
  let s :=
    if c.result ≠ K.SDO_FINISHED then s.emit (.printf (.infoFailed nodeid c.abortCode))
    else if s.get_info_step = 1 then s.emit (.printf (.deviceType (wordOf c.data)))
    else if s.get_info_step = 2 then s.emit (.printf (.vendorID (wordOf c.data)))
    else if s.get_info_step = 3 then s.emit (.printf (.productCode (wordOf c.data)))
    else if s.get_info_step = 4 then s.emit (.printf (.revisionNumber (wordOf c.data)))
    else s
  let s := s.emit (.closeSDOtransfer nodeid)
  GetSlaveNodeInfo nodeid s

/-! ## Synchronous bridge -/

/-- `WAIT_NS`. -/
def WAIT_NS : Int := 500000000

/-- `INIT_ERR`. -/
def INIT_ERR : Int := 2

/-- `QUIT`. -/
def QUIT : Int := 1

/-- The outcome of a piece of code that may end the process through `handle_error`. -/
inductive Run (α : Type)
  | ret (a : α) (s : Shell)
  | exit (s : Shell)
  deriving DecidableEq, Repr

/-- The state a run ends in. -/
def Run.state {α : Type} : Run α → Shell
  | .ret _ s => s
  | .exit s => s

/-- The value a run returns, when it returns. -/
def Run.value {α : Type} : Run α → Option α
  | .ret a _ => some a
  | .exit _ => none

/-- Sequencing: the second piece runs only when the first returned. -/
def Run.bind {α β : Type} (r : Run α) (f : α → Shell → Run β) : Run β :=
  match r with
  | .ret a s => f a s
  | .exit s => .exit s

/-- The stack invoking a completion callback: the node id it passes and the answer the
callback then gets from `getReadResultNetworkDict` / `getWriteResultNetworkDict`. -/
structure Arrival where
  nodeid : Nat
  answer : Completion
  deriving DecidableEq, Repr

/-- What ends a `sem_timedwait` that found the count at 0 and blocked: a callback posts the
semaphore, the deadline passes (`ETIMEDOUT`), or the call fails with another `errno`. -/
inductive Blocked
  | posted (a : Arrival)
  | timedOut
  | failed
  deriving DecidableEq, Repr

/-- How the wait loop ended: `s == 0`, `s == -1` with `ETIMEDOUT`, `s == -1` otherwise. -/
inductive WaitResult
  | ok
  | etimedout
  | other
  deriving DecidableEq, Repr

/-- Everything one call of `SDO_read` / `SDO_write` receives from outside: the value the
stack's submit call returns, the clock reading (`none`: `clock_gettime` returned -1), the
callbacks the stack thread runs after `LeaveMutex` and before the first `sem_timedwait`,
the number of waits interrupted by a signal (`EINTR`), and what ends a blocked wait. -/
structure BridgeEnv where
  submit : Nat
  clock : Option Timespec
  early : List Arrival
  eintr : Nat
  blocked : Blocked
  deriving DecidableEq, Repr

/-- Arithmetic on `time_t` and `long`, both signed 64-bit on the target: the result of an
addition or subtraction is reduced to the range -2^63 .. 2^63 - 1 (what the compiled program
yields when the mathematical result does not fit). -/
def wrap64 (x : Int) : Int :=
  (x + 9223372036854775808) % 18446744073709551616 - 9223372036854775808

/-- The deadline arithmetic of `SDO_read` and `SDO_write`:
`tv_nsec += WAIT_NS; if (tv_nsec >= 1000000000) { tv_sec++; tv_nsec -= 1000000000; }`,
in signed 64-bit arithmetic. -/
def addWait (ts : Timespec) : Timespec :=
  let ts := { ts with tv_nsec := wrap64 (ts.tv_nsec + WAIT_NS) }
  if ts.tv_nsec ≥ 1000000000 then
    { tv_sec := wrap64 (ts.tv_sec + 1), tv_nsec := wrap64 (ts.tv_nsec - 1000000000) }
  else ts

/-- `SDO_read_callback`.  `SDO_read_data` afterwards holds the bytes the stack copied (at
most the 255 the callback offers), `SDO_read_data_size` their number. -/
def SDO_read_callback (c : Completion) (nodeid : Nat) (s : Shell) : Shell :=
  let s := { s with SDO_read_data_size := 255 }
  let s := s.emit (.getReadResultNetworkDict nodeid)
  let s := { s with
    SDO_read_callback_result := c.result
    SDO_read_callback_abortCode := c.abortCode
    SDO_read_data := c.data.take 255
    SDO_read_data_size := (c.data.take 255).length }
  let s := s.emit (.closeSDOtransfer nodeid)
  let s := s.emit (.sem_post .Read_sem)
  { s with Read_sem := s.Read_sem + 1 }

/-- `SDO_write_callback`. -/
def SDO_write_callback (c : Completion) (nodeid : Nat) (s : Shell) : Shell :=
  let s := s.emit (.getWriteResultNetworkDict nodeid)
  let s := { s with
    SDO_write_callback_result := c.result
    SDO_write_callback_abortCode := c.abortCode }
  let s := s.emit (.closeSDOtransfer nodeid)
  let s := s.emit (.sem_post .Write_sem)
  { s with Write_sem := s.Write_sem + 1 }

/-- The callbacks the stack thread runs on the read gate, in order. -/
def deliverRead (as : List Arrival) (s : Shell) : Shell :=
  as.foldl (fun s a => SDO_read_callback a.answer a.nodeid s) s

/-- The callbacks the stack thread runs on the write gate, in order. -/
def deliverWrite (as : List Arrival) (s : Shell) : Shell :=
  as.foldl (fun s a => SDO_write_callback a.answer a.nodeid s) s

/-- The loop `while ((s = sem_timedwait(&Read_sem, &Read_sem_ts)) == -1 && errno == EINTR)`.
A call that finds the count positive takes it at once; a call that finds it 0 blocks, and is
either interrupted (`eintr` more times) or ended by `b`. -/
def Read_sem_wait : Nat → Blocked → Shell → Shell × WaitResult
  | eintr, b, s =>
    let s := s.emit (.sem_timedwait .Read_sem)
    if 0 < s.Read_sem then ({ s with Read_sem := s.Read_sem - 1 }, .ok)
    else
      match eintr with
      | n + 1 => Read_sem_wait n b s
      | 0 =>
        match b with
        | .posted a =>
          let s := SDO_read_callback a.answer a.nodeid s
          ({ s with Read_sem := s.Read_sem - 1 }, .ok)
        | .timedOut => (s, .etimedout)
        | .failed => (s, .other)

/-- The same loop on `Write_sem`. -/
def Write_sem_wait : Nat → Blocked → Shell → Shell × WaitResult
  | eintr, b, s =>
    let s := s.emit (.sem_timedwait .Write_sem)
    if 0 < s.Write_sem then ({ s with Write_sem := s.Write_sem - 1 }, .ok)
    else
      match eintr with
      | n + 1 => Write_sem_wait n b s
      | 0 =>
        match b with
        | .posted a =>
          let s := SDO_write_callback a.answer a.nodeid s
          ({ s with Write_sem := s.Write_sem - 1 }, .ok)
        | .timedOut => (s, .etimedout)
        | .failed => (s, .other)

/-- `SDO_read` up to `LeaveMutex`: the sentinel, the submission, the release of the lock. -/
def SDO_read_issue (nodeId index subIndex dataType useBlockMode : Nat) (s : Shell) : Shell :=
  let s := s.emit .SDO_read
  let s := { s with SDO_read_callback_result := 44 }
  let s := s.emit
    (.readNetworkDictCallback nodeId index subIndex dataType .SDO_read_callback useBlockMode)
  s.emit .LeaveMutex

/-- `SDO_read` after the wait loop: "Check what happened". -/
def SDO_read_check (K : Consts) (nodeId : Nat) (w : WaitResult) (s : Shell) : Shell :=
  match w with
  | .etimedout => s.emit (.printf .timedOut)
  | .other => s.emit (.printf .perrorSemTimedwait)
  | .ok =>
    if s.SDO_read_callback_result ≠ K.SDO_FINISHED then
      s.emit (.printf (.resultFailed nodeId s.SDO_read_callback_abortCode))
    else s

/-- `SDO_read` from `clock_gettime` to the point where the wait loop starts: the deadline is
stored in `Read_sem_ts`; `early` are the callbacks the stack thread ran in the meantime. -/
def SDO_read_deadline (now : Timespec) (early : List Arrival) (s : Shell) : Shell :=
  let s := { s with Read_sem_ts := now }
  let s := { s with Read_sem_ts := addWait s.Read_sem_ts }
  deliverRead early s

/-- `SDO_read`.  The returned value is `readResult`, the value of the submit call. -/
def SDO_read (K : Consts) (e : BridgeEnv) (nodeId index subIndex dataType useBlockMode : Nat)
    (s : Shell) : Run Nat :=
  let s := SDO_read_issue nodeId index subIndex dataType useBlockMode s
  let readResult := e.submit
  let s := s.emit .clock_gettime
  match e.clock with
  | none => .exit ((s.emit (.printf .perrorClockGettime)).emit .exitFailure)
  | some now =>
    let s := SDO_read_deadline now e.early s
    let r := Read_sem_wait e.eintr e.blocked s
    .ret readResult (SDO_read_check K nodeId r.2 r.1)

/-- `SDO_write` up to `LeaveMutex`. -/
def SDO_write_issue (nodeId index subIndex count dataType : Nat) (data : Payload)
    (useBlockMode : Nat) (s : Shell) : Shell :=
  let s := s.emit .SDO_write
  let s := { s with SDO_write_callback_result := 44 }
  let s := s.emit
    (.writeNetworkDictCallBack nodeId index subIndex count dataType data .SDO_write_callback
      useBlockMode)
  s.emit .LeaveMutex

/-- `SDO_write` after the wait loop. -/
def SDO_write_check (K : Consts) (nodeId : Nat) (w : WaitResult) (s : Shell) : Shell :=
  match w with
  | .etimedout => s.emit (.printf .timedOut)
  | .other => s.emit (.printf .perrorSemTimedwait)
  | .ok =>
    if s.SDO_write_callback_result ≠ K.SDO_FINISHED then
      s.emit (.printf (.resultFailed nodeId s.SDO_write_callback_abortCode))
    else s

/-- `SDO_write` from `clock_gettime` to the point where the wait loop starts. -/
def SDO_write_deadline (now : Timespec) (early : List Arrival) (s : Shell) : Shell :=
  let s := { s with Write_sem_ts := now }
  let s := { s with Write_sem_ts := addWait s.Write_sem_ts }
  deliverWrite early s

/-- `SDO_write`.  The returned value is `writeResult`, the value of the submit call. -/
def SDO_write (K : Consts) (e : BridgeEnv) (nodeId index subIndex count dataType : Nat)
    (data : Payload) (useBlockMode : Nat) (s : Shell) : Run Nat :=
  let s := SDO_write_issue nodeId index subIndex count dataType data useBlockMode s
  let writeResult := e.submit
  let s := s.emit .clock_gettime
  match e.clock with
  | none => .exit ((s.emit (.printf .perrorClockGettime)).emit .exitFailure)
  | some now =>
    let s := SDO_write_deadline now e.early s
    let r := Write_sem_wait e.eintr e.blocked s
    .ret writeResult (SDO_write_check K nodeId r.2 r.1)

/-! ## `sscanf`

C strings are lists of characters (the terminating NUL is the end of the list).  The scanner
follows glibc's `vfscanf` for the directives this program uses: ordinary characters, white
space, `%x` / `%Nx`, `%d`, `%s` and `%N[^,]`. -/

/-- `isspace` in the C locale. -/
def isspace (c : Char) : Bool := c.toNat = 32 || (9 ≤ c.toNat && c.toNat ≤ 13)

/-- The value of a hexadecimal digit. -/
def hexVal (c : Char) : Option Nat :=
  if 48 ≤ c.toNat ∧ c.toNat ≤ 57 then some (c.toNat - 48)
  else if 97 ≤ c.toNat ∧ c.toNat ≤ 102 then some (c.toNat - 87)
  else if 65 ≤ c.toNat ∧ c.toNat ≤ 70 then some (c.toNat - 55)
  else none

/-- `isxdigit`. -/
def isxdigit (c : Char) : Bool := (hexVal c).isSome

/-- The value of `c` as a digit in `base` (10 or 16). -/
def digitVal (base : Nat) (c : Char) : Option Nat :=
  match hexVal c with
  | some d => if d < base then some d else none
  | none => none

/-- Skip leading white space. -/
def skipws : List Char → List Char
  | [] => []
  | c :: cs => if isspace c then skipws cs else c :: cs

/-- Is there field width left?  `none` is "no width given". -/
def widthLeft : Option Nat → Bool
  | none => true
  | some w => 0 < w

/-- One character of the field consumed. -/
def widthDec : Option Nat → Option Nat
  | none => none
  | some w => some (w - 1)

/-- The digit loop of a numeric conversion: accumulated value, number of characters in the
work buffer, and the unread input. -/
def scanDigits (base : Nat) : List Char → Option Nat → Nat → Nat → Nat × Nat × List Char
  | [], _, acc, cnt => (acc, cnt, [])
  | c :: cs, w, acc, cnt =>
    if widthLeft w then
      match digitVal base c with
      | some d => scanDigits base cs (widthDec w) (acc * base + d) (cnt + 1)
      | none => (acc, cnt, c :: cs)
    else (acc, cnt, c :: cs)

/-- The result of one conversion. -/
inductive Scan (α : Type)
  | ok (v : α) (rest : List Char)
  | mismatch
  | eof
  deriving DecidableEq, Repr

/-- A numeric conversion: white space, an optional sign, for base 16 an optional `0x`, then
digits, all within the field width.  Yields the sign and the magnitude. -/
def scanNumber (base : Nat) (width : Option Nat) (input : List Char) : Scan (Bool × Nat) :=
  match skipws input with
  | [] => .eof
  | c :: cs =>
    let signed := c = '-' ∨ c = '+'
    let neg : Bool := c = '-'
    let w1 := if signed then widthDec width else width
    let in1 := if signed then cs else c :: cs
    match in1 with
    | [] => .mismatch
    | z :: cs1 =>
      if z = '0' ∧ widthLeft w1 then
        let w2 := widthDec w1
        match cs1 with
        | [] => .ok (neg, 0) []
        | x :: cs2 =>
          if widthLeft w2 ∧ (x = 'x' ∨ x = 'X') ∧ base = 16 then
            let r := scanDigits base cs2 (widthDec w2) 0 1
            .ok (neg, r.1) r.2.2
          else
            let r := scanDigits base cs1 w2 0 1
            .ok (neg, r.1) r.2.2
      else
        let r := scanDigits base in1 w1 0 0
        if r.2.1 = 0 then .mismatch else .ok (neg, r.1) r.2.2

/-- `%x` stored through an `int *` / `UNS32 *`: `strtoul` (saturating at `ULONG_MAX`, a
leading `-` negates modulo 2^64), truncated to 32 bits. -/
def scanHex (width : Option Nat) (input : List Char) : Scan Int :=
  match scanNumber 16 width input with
  | .ok (neg, v) rest =>
    let ul := if v ≥ 18446744073709551616 then 18446744073709551615
      else if neg then (18446744073709551616 - v) % 18446744073709551616 else v
    .ok (toInt32 ul) rest
  | .mismatch => .mismatch
  | .eof => .eof

/-- `%d` stored through an `int *`: `strtol` (saturating at `LONG_MIN` / `LONG_MAX`),
truncated to 32 bits. -/
def scanDec (input : List Char) : Scan Int :=
  match scanNumber 10 none input with
  | .ok (neg, v) rest =>
    let l : Int := if neg then (if v ≥ 9223372036854775808 then -9223372036854775808 else -(v : Int))
      else (if v ≥ 9223372036854775808 then 9223372036854775807 else (v : Int))
    .ok (toInt32 (l % 4294967296).toNat) rest
  | .mismatch => .mismatch
  | .eof => .eof

/-- Take characters while `p` holds and the field width allows. -/
def scanWhile (p : Char → Bool) : List Char → Nat → List Char × List Char
  | [], _ => ([], [])
  | _ :: _, 0 => ([], [])
  | c :: cs, w + 1 =>
    if p c then ((scanWhile p cs w).1.cons c, (scanWhile p cs w).2) else ([], c :: cs)

/-- Take characters while `p` holds (no field width). -/
def spanChars (p : Char → Bool) : List Char → List Char × List Char
  | [] => ([], [])
  | c :: cs => if p c then ((spanChars p cs).1.cons c, (spanChars p cs).2) else ([], c :: cs)

/-- `%s`: skip white space, then the non-space characters. -/
def scanStr (input : List Char) : Scan (List Char) :=
  match skipws input with
  | [] => .eof
  | c :: cs => .ok (spanChars (fun x => !isspace x) (c :: cs)).1
      (spanChars (fun x => !isspace x) (c :: cs)).2

/-- `%N[^,]`: at most `N` characters other than `stop`, at least one; no white-space skip. -/
def scanUpTo (width : Nat) (stop : Char) (input : List Char) : Scan (List Char) :=
  match input with
  | [] => .eof
  | c :: cs =>
    if c = stop then .mismatch
    else .ok (scanWhile (fun x => x ≠ stop) (c :: cs) width).1
      ((c :: cs).drop (scanWhile (fun x => x ≠ stop) (c :: cs) width).1.length)

/-- The directives of a format string. -/
inductive Dir
  | lit (c : Char)
  | space
  | hex (width : Option Nat)
  | dec
  | str
  | upTo (width : Nat) (stop : Char)
  deriving DecidableEq, Repr

/-- A converted value. -/
inductive Val
  | int (v : Int)
  | str (s : List Char)
  deriving DecidableEq, Repr

/-- What `sscanf` did: its return value and the values it stored, in argument order. -/
structure Scanned where
  ret : Int
  vals : List Val
  deriving DecidableEq, Repr

/-- The return value when scanning stops: the number of conversions stored, or `EOF` (-1)
on an input failure before the first conversion. -/
def stopAt (inputFailure : Bool) (vals : List Val) : Scanned :=
  if inputFailure ∧ vals.length = 0 then ⟨-1, vals⟩ else ⟨vals.length, vals⟩

/-- The directive loop of `sscanf`. -/
def sscanfLoop : List Dir → List Char → List Val → Scanned
  | [], _, vals => stopAt false vals
  | .lit c :: ds, input, vals =>
    match input with
    | [] => stopAt true vals
    | x :: xs => if x = c then sscanfLoop ds xs vals else stopAt false vals
  | .space :: ds, input, vals => sscanfLoop ds (skipws input) vals
  | .hex w :: ds, input, vals =>
    match scanHex w input with
    | .ok v rest => sscanfLoop ds rest (vals ++ [.int v])
    | .mismatch => stopAt false vals
    | .eof => stopAt true vals
  | .dec :: ds, input, vals =>
    match scanDec input with
    | .ok v rest => sscanfLoop ds rest (vals ++ [.int v])
    | .mismatch => stopAt false vals
    | .eof => stopAt true vals
  | .str :: ds, input, vals =>
    match scanStr input with
    | .ok v rest => sscanfLoop ds rest (vals ++ [.str v])
    | .mismatch => stopAt false vals
    | .eof => stopAt true vals
  | .upTo w stop :: ds, input, vals =>
    match scanUpTo w stop input with
    | .ok v rest => sscanfLoop ds rest (vals ++ [.str v])
    | .mismatch => stopAt false vals
    | .eof => stopAt true vals

/-- `sscanf(input, format, ...)`. -/
def sscanf (input : List Char) (format : List Dir) : Scanned := sscanfLoop format input []

/-- The value of the `k`-th `int` argument after the call: the stored value, or `old` when
the conversion was not reached. -/
def Scanned.int (r : Scanned) (k : Nat) (old : Int) : Int :=
  match r.vals.get? k with
  | some (.int v) => v
  | _ => old

/-- The value of the `k`-th string argument after the call. -/
def Scanned.str (r : Scanned) (k : Nat) (old : List Char) : List Char :=
  match r.vals.get? k with
  | some (.str v) => v
  | _ => old

/-- Ordinary characters of a format. -/
def lits (cs : List Char) : List Dir := cs.map Dir.lit

/-- Format `"%2x"`. -/
def fmt_nodeid : List Dir := [.hex (some 2)]

/-- Format `"rsdo#%2x,%4x,%2x"`. -/
def fmt_rsdo : List Dir :=
  lits ['r', 's', 'd', 'o', '#'] ++ [.hex (some 2), .lit ',', .hex (some 4), .lit ',', .hex (some 2)]

/-- Format `"wsdo#%2x,%4x,%2x,%2x,%x"`. -/
def fmt_wsdo : List Dir :=
  lits ['w', 's', 'd', 'o', '#'] ++ [.hex (some 2), .lit ',', .hex (some 4), .lit ',',
    .hex (some 2), .lit ',', .hex (some 2), .lit ',', .hex none]

/-- Format `"node %2x"`. -/
def fmt_node : List Dir := lits ['n', 'o', 'd', 'e'] ++ [.space, .hex (some 2)]

/-- Format `"cmd %2x,%s"`. -/
def fmt_cmd : List Dir := lits ['c', 'm', 'd'] ++ [.space, .hex (some 2), .lit ',', .str]

/-- Format `"wait#%d"`. -/
def fmt_wait : List Dir := lits ['w', 'a', 'i', 't', '#'] ++ [.dec]

/-- Format `"load#%100[^,],%30[^,],%4[^,],%d,%d"`. -/
def fmt_load : List Dir :=
  lits ['l', 'o', 'a', 'd', '#'] ++ [.upTo 100 ',', .lit ',', .upTo 30 ',', .lit ',',
    .upTo 4 ',', .lit ',', .dec, .lit ',', .dec]

/-- Format `"r%4x,%2x"`. -/
def fmt_focus_r : List Dir := [.lit 'r', .hex (some 4), .lit ',', .hex (some 2)]

/-- Format `"w%4x,%2x,%2x,%x"`. -/
def fmt_focus_w : List Dir :=
  [.lit 'w', .hex (some 4), .lit ',', .hex (some 2), .lit ',', .hex (some 2), .lit ',', .hex none]

/-- Format `"w%x"`, the format the `'c'` case of `ProcessFocusedCommand` passes. -/
def fmt_focus_c : List Dir := [.lit 'w', .hex none]

/-! ## Fire-and-forget reads and writes -/

/-- `CheckReadSDO`. -/
def CheckReadSDO (K : Consts) (c : Completion) (nodeid : Nat) (s : Shell) : Shell :=
  let s := s.emit (.getReadResultNetworkDict nodeid)
  let s :=
    if c.result ≠ K.SDO_FINISHED then s.emit (.printf (.resultFailed nodeid c.abortCode))
    else s.emit (.printf (.readValue (wordOf c.data)))
  s.emit (.closeSDOtransfer nodeid)

/-- `CheckWriteSDO`. -/
def CheckWriteSDO (K : Consts) (c : Completion) (nodeid : Nat) (s : Shell) : Shell :=
  let s := s.emit (.getWriteResultNetworkDict nodeid)
  let s :=
    if c.result ≠ K.SDO_FINISHED then s.emit (.printf (.resultFailed nodeid c.abortCode))
    else s.emit (.printf .sendDataOK)
  s.emit (.closeSDOtransfer nodeid)

/-- `ReadDeviceEntry`. -/
def ReadDeviceEntry (sdo : List Char) (s : Shell) : Shell :=
  let r := sscanf sdo fmt_rsdo
  let nodeid := r.int 0 0
  let index := r.int 1 0
  let subindex := r.int 2 0
  let datatype : Int := 0
  if r.ret = 3 then
    let s := s.emit (.printf .hashes)
    let s := s.emit (.printf .readTitle)
    let s := s.emit (.printf .hashes)
    let s := s.emit (.printf (.nodeIdLine nodeid))
    let s := s.emit (.printf (.indexLine index))
    let s := s.emit (.printf (.subIndexLine subindex))
    s.emit (.readNetworkDictCallback (toUNS8 nodeid) (toUNS16 index) (toUNS8 subindex)
      (toUNS8 datatype) .CheckReadSDO 0)
  else s.emit (.printf (.wrongCommand sdo))

/-- `ReadSDOEntry`. -/
def ReadSDOEntry (nodeid index subindex : Int) (s : Shell) : Shell :=
  let datatype : Int := 0
  s.emit (.readNetworkDictCallback (toUNS8 nodeid) (toUNS16 index) (toUNS8 subindex)
    (toUNS8 datatype) .CheckReadSDO 0)

/-- `WriteDeviceEntry`. -/
def WriteDeviceEntry (sdo : List Char) (s : Shell) : Shell :=
  let r := sscanf sdo fmt_wsdo
  let nodeid := r.int 0 0
  let index := r.int 1 0
  let subindex := r.int 2 0
  let size := r.int 3 0
  let data := r.int 4 0
  if r.ret = 5 then
    let s := s.emit (.printf .hashes)
    let s := s.emit (.printf .writeTitle)
    let s := s.emit (.printf .hashes)
    let s := s.emit (.printf (.nodeIdLine nodeid))
    let s := s.emit (.printf (.indexLine index))
    let s := s.emit (.printf (.subIndexLine subindex))
    let s := s.emit (.printf (.sizeLine size))
    let s := s.emit (.printf (.dataLine data))
    s.emit (.writeNetworkDictCallBack (toUNS8 nodeid) (toUNS16 index) (toUNS8 subindex)
      (toUNS32 size) 0 (.word (toUNS32 data)) .CheckWriteSDO 0)
  else s.emit (.printf (.wrongCommand sdo))

/-- `WriteSDOEntry`. -/
def WriteSDOEntry (nodeid index subindex size : Int) (data : Nat) (s : Shell) : Shell :=
  s.emit (.writeNetworkDictCallBack (toUNS8 nodeid) (toUNS16 index) (toUNS8 subindex)
    (toUNS32 size) 0 (.word data) .CheckWriteSDO 0)

/-! ## Command dispatcher -/

/-- `StartNode`. -/
def StartNode (nodeid : Nat) (s : Shell) : Shell :=
  s.emit (.masterSendNMTstateChange nodeid .NMT_Start_Node)

/-- `StopNode`. -/
def StopNode (nodeid : Nat) (s : Shell) : Shell :=
  s.emit (.masterSendNMTstateChange nodeid .NMT_Stop_Node)

/-- `ResetNode`. -/
def ResetNode (nodeid : Nat) (s : Shell) : Shell :=
  s.emit (.masterSendNMTstateChange nodeid .NMT_Reset_Node)

/-- `DiscoverNodes`. -/
def DiscoverNodes (s : Shell) : Shell :=
  ResetNode 0x00 (s.emit (.printf .waitForBootup))

/-- `help_menu`: prints the usage text. -/
def help_menu (s : Shell) : Shell := s.emit .help_menu

/-- `SleepFunction`. -/
def SleepFunction (second : Int) (s : Shell) : Shell := s.emit (.SleepFunction second)

/-- The value of `(char)c` after integer promotion, `char` being signed 8-bit. -/
def schar (c : Char) : Int :=
  if c.toNat % 256 < 128 then (c.toNat % 256 : Nat) else ((c.toNat % 256 : Nat) : Int) - 256

/-- The macro `cst_str4`: `((((unsigned)0 | (char)c4 << 8) | (char)c3) << 8 | (char)c2) << 8
| (char)c1`, in 32-bit unsigned arithmetic; each `(char)c` is sign-extended when it is or-ed
into the unsigned value. -/
def cst_str4 (c1 c2 c3 c4 : Char) : Nat :=
  let a := 0 ||| toUNS32 (schar c4 * 256)
  let b := a ||| toUNS32 (schar c3)
  let c := ((b <<< 8) % 4294967296) ||| toUNS32 (schar c2)
  ((c <<< 8) % 4294967296) ||| toUNS32 (schar c1)

/-- `command[i]`; the terminating NUL is read at the end of the string, and a read past it is
taken as NUL as well. -/
def charAt (command : List Char) (i : Nat) : Char := command.getD i (Char.ofNat 0)

/-- `strlen`. -/
def strlen (str : List Char) : Nat := str.length

/-- The contents of the locals a function reads before anything was stored in them. -/
structure Junk where
  nodeid : Int
  NodeID : Int
  NodeType : Int
  buf : List Char
  index : Int
  size : Int
  deriving DecidableEq, Repr

/-- Everything one command receives from outside the program text. -/
structure World where
  K : Consts
  junk : Junk
  write : BridgeEnv
  read : BridgeEnv
  canOpen : Bool
  deriving DecidableEq, Repr

/-- `ExtractNodeId`: the local `nodeid` is returned whether or not `sscanf` stored into it. -/
def ExtractNodeId (u : Junk) (command : List Char) : Int :=
  (sscanf command fmt_nodeid).int 0 u.nodeid

/-- `NodeInit`. -/
def NodeInit (W : World) (NodeID NodeType : Int) (s : Shell) : Run Int :=
  let s := { s with masterOD := decide (NodeType ≠ 0) }
  let s := s.emit (.LoadCanDriver s.LibraryPath)
  let s := s.emit (.canOpen s.BoardBusName s.BoardBaudRate)
  if !W.canOpen then .ret INIT_ERR s
  else
    let s := s.emit (.setNodeId (toUNS8 NodeID))
    let s := s.emit .StartTimerLoop
    .ret 0 s

/-- `ProcessCommand`. -/
def ProcessCommand (W : World) (command : List Char) (s : Shell) : Run Int :=
  let s := s.emit .EnterMutex
  let key := cst_str4 (charAt command 0) (charAt command 1) (charAt command 2) (charAt command 3)
  if key = cst_str4 'h' 'e' 'l' 'p' then
    .ret 0 ((help_menu s).emit .LeaveMutex)
  else if key = cst_str4 'c' 'l' 'e' 'a' then
    .ret 0 ((s.emit .systemClear).emit .LeaveMutex)
  else if key = cst_str4 's' 's' 't' 'a' then
    .ret 0 ((StartNode (toUNS8 (ExtractNodeId W.junk (command.drop 5))) s).emit .LeaveMutex)
  else if key = cst_str4 's' 's' 't' 'o' then
    .ret 0 ((StopNode (toUNS8 (ExtractNodeId W.junk (command.drop 5))) s).emit .LeaveMutex)
  else if key = cst_str4 's' 'r' 's' 't' then
    .ret 0 ((ResetNode (toUNS8 (ExtractNodeId W.junk (command.drop 5))) s).emit .LeaveMutex)
  else if key = cst_str4 'i' 'n' 'f' 'o' then
    .ret 0 ((GetSlaveNodeInfo (toUNS8 (ExtractNodeId W.junk (command.drop 5))) s).emit
      .LeaveMutex)
  else if key = cst_str4 'r' 's' 'd' 'o' then
    .ret 0 ((ReadDeviceEntry command s).emit .LeaveMutex)
  else if key = cst_str4 'w' 's' 'd' 'o' then
    .ret 0 ((WriteDeviceEntry command s).emit .LeaveMutex)
  else if key = cst_str4 'n' 'o' 'd' 'e' then
    let NodeID := (sscanf command fmt_node).int 0 W.junk.NodeID
    (SDO_write W.K W.write (toUNS8 NodeID) 0x1024 0x00 1 0 (.word 0) 0 s).bind fun _ s =>
      let s := { s with CurrentNode := NodeID }
      .ret 0 (s.emit .LeaveMutex)
  else if key = cst_str4 'c' 'm' 'd' ' ' then
    let r := sscanf command fmt_cmd
    let NodeID := r.int 0 W.junk.NodeID
    let buf := r.str 1 W.junk.buf
    (SDO_write W.K W.write (toUNS8 NodeID) 0x1023 0x01 (strlen buf) W.K.visible_string
        (.text buf) 0 s).bind fun _ s =>
      (SDO_read W.K W.read (toUNS8 NodeID) 0x1023 0x03 W.K.visible_string 0 s).bind fun _ s =>
        .ret 0 s
  else if key = cst_str4 's' 'y' 'n' '0' then
    .ret 0 ((s.emit .stopSYNC).emit .LeaveMutex)
  else if key = cst_str4 's' 'y' 'n' '1' then
    .ret 0 ((s.emit .startSYNC).emit .LeaveMutex)
  else if key = cst_str4 's' 't' 'a' 't' then
    let s := s.emit (.printf (.status3 s.Status3))
    let s := { s with Status3 := 0 }
    .ret 0 (s.emit .LeaveMutex)
  else if key = cst_str4 's' 'c' 'a' 'n' then
    .ret 0 ((DiscoverNodes s).emit .LeaveMutex)
  else if key = cst_str4 'w' 'a' 'i' 't' then
    let r := sscanf command fmt_wait
    let sec := r.int 0 0
    if r.ret = 1 then
      let s := s.emit .LeaveMutex
      .ret 0 (SleepFunction sec s)
    else .ret 0 (s.emit .LeaveMutex)
  else if key = cst_str4 'g' 'o' 'o' 'o' then
    .ret 0 ((s.emit .setStateOperational).emit .LeaveMutex)
  else if key = cst_str4 'q' 'u' 'i' 't' then
    .ret QUIT (s.emit .LeaveMutex)
  else if key = cst_str4 'l' 'o' 'a' 'd' then
    let r := sscanf command fmt_load
    let s := { s with
      LibraryPath := r.str 0 s.LibraryPath
      BoardBusName := r.str 1 s.BoardBusName
      BoardBaudRate := r.str 2 s.BoardBaudRate }
    let NodeID := r.int 3 W.junk.NodeID
    let NodeType := r.int 4 W.junk.NodeType
    if r.ret = 5 then
      NodeInit W NodeID NodeType (s.emit .LeaveMutex)
    else
      .ret 0 ((s.emit (.printf .invalidLoad)).emit .LeaveMutex)
  else
    .ret 0 ((help_menu s).emit .LeaveMutex)

/-- `ProcessFocusedCommand`. -/
def ProcessFocusedCommand (W : World) (command : List Char) (s : Shell) : Run Int :=
  let s := s.emit .EnterMutex
  let c0 := charAt command 0
  let s :=
    if c0 = 's' then StartNode (toUNS8 s.CurrentNode) s
    else if c0 = 't' then StopNode (toUNS8 s.CurrentNode) s
    else if c0 = 'x' then ResetNode (toUNS8 s.CurrentNode) s
    else if c0 = 'r' then
      let r := sscanf command fmt_focus_r
      let index := r.int 0 W.junk.index
      let subindex := r.int 1 0
      if r.ret ≠ 0 then ReadSDOEntry s.CurrentNode index subindex s else s
    else if c0 = 'w' then
      let r := sscanf command fmt_focus_w
      let index := r.int 0 W.junk.index
      let subindex := r.int 1 0
      let size := r.int 2 W.junk.size
      let data := toUNS32 (r.int 3 0)
      if r.ret ≠ 0 then WriteSDOEntry s.CurrentNode index subindex size data s else s
    else if c0 = '?' then ReadSDOEntry s.CurrentNode 0x6041 0 s
    else if c0 = 'c' then
      let r := sscanf command fmt_focus_c
      let data := toUNS32 (r.int 0 0)
      if r.ret ≠ 0 then WriteSDOEntry s.CurrentNode 0x6040 0 0x2 data s else s
    else help_menu s
  .ret 0 (s.emit .LeaveMutex)

/-- The body of the `while(ret != QUIT)` loop of `main` for one line `res`; the value is the
new `ret`.  The last branch sends the line to the focus node over the OS-command object. -/
def mainLoopBody (W : World) (ret : Int) (res : List Char) (s : Shell) : Run Int :=
  let r : Run Int :=
    if charAt res 0 = '.' then ProcessCommand W (res.drop 1) s
    else if charAt res 0 = ',' then ProcessFocusedCommand W (res.drop 1) s
    else if charAt res 0 = Char.ofNat 10 then .ret ret s
    else
      let s := s.emit .EnterMutex
      (SDO_write W.K W.write (toUNS8 s.CurrentNode) 0x1023 0x01 (strlen res)
          W.K.visible_string (.text res) 0 s).bind fun _ s =>
        let s := s.emit .EnterMutex
        (SDO_read W.K W.read (toUNS8 s.CurrentNode) 0x1023 0x03 W.K.visible_string 0 s).bind
          fun _ s => .ret ret (s.emit (.printf (.readData s.SDO_read_data)))
  r.bind fun v s => .ret v (s.emit .usleep)

/-! ## Vocabulary of the statements -/

/-- The state after `k` calls of `sem_timedwait(&Read_sem, ...)` that left the count alone. -/
def readWaits (k : Nat) (s : Shell) : Shell :=
  { s with trace := s.trace ++ List.replicate k (.sem_timedwait .Read_sem) }

/-- The state after `k` calls of `sem_timedwait(&Write_sem, ...)` that left the count alone. -/
def writeWaits (k : Nat) (s : Shell) : Shell :=
  { s with trace := s.trace ++ List.replicate k (.sem_timedwait .Write_sem) }

/-- The failure lines "Result : Failed in getting information for slave .., AbortCode :.."
of a trace, each as the pair of the node id and the abort code it shows. -/
def failureLines (t : List Event) : List (Nat × Nat) :=
  t.filterMap fun e =>
    match e with
    | .printf (.resultFailed nodeid abortCode) => some (nodeid, abortCode)
    | _ => none

/-- A call of `SDO_read` followed, after it returned, by the completion callback of its
transfer (the late completion of a transfer whose wait timed out). -/
def lateRead (K : Consts) (e : BridgeEnv) (a : Arrival)
    (nodeId index subIndex dataType useBlockMode : Nat) (s : Shell) : Shell :=
  SDO_read_callback a.answer a.nodeid
    (SDO_read K e nodeId index subIndex dataType useBlockMode s).state

/-- A call of `SDO_write` followed, after it returned, by the completion callback of its
transfer. -/
def lateWrite (K : Consts) (e : BridgeEnv) (a : Arrival)
    (nodeId index subIndex count dataType : Nat) (data : Payload) (useBlockMode : Nat)
    (s : Shell) : Shell :=
  SDO_write_callback a.answer a.nodeid
    (SDO_write K e nodeId index subIndex count dataType data useBlockMode s).state

/-- `isdigit`. -/
def isdigit (c : Char) : Bool := 48 ≤ c.toNat && c.toNat ≤ 57

/-- Scan a trace of one flow of control, remembering whether the flow has called `LeaveMutex`
since its last `EnterMutex`; the result is `true` when that is the case at every
`sem_timedwait` and every `SleepFunction`.  The first argument is the flag at the start
(`false`: the flow holds the lock it took with `EnterMutex`). -/
def releasedAtBlocking : Bool → List Event → Bool
  | _, [] => true
  | _, .EnterMutex :: t => releasedAtBlocking false t
  | _, .LeaveMutex :: t => releasedAtBlocking true t
  | r, .sem_timedwait _ :: t => r && releasedAtBlocking r t
  | r, .SleepFunction _ :: t => r && releasedAtBlocking r t
  | r, _ :: t => releasedAtBlocking r t

/-- The lock count at each entry to `SDO_read` / `SDO_write` along a trace: `EnterMutex`
counts +1, `LeaveMutex` counts -1, starting from the first argument. -/
def lockCountAtCalls : Int → List Event → List Int
  | _, [] => []
  | n, .EnterMutex :: t => lockCountAtCalls (n + 1) t
  | n, .LeaveMutex :: t => lockCountAtCalls (n - 1) t
  | n, .SDO_read :: t => n :: lockCountAtCalls n t
  | n, .SDO_write :: t => n :: lockCountAtCalls n t
  | n, _ :: t => lockCountAtCalls n t

/-- The number a string of hexadecimal digits denotes. -/
def hexValue (ds : List Char) : Nat :=
  ds.foldl (fun acc c => acc * 16 + (hexVal c).getD 0) 0

/-- The byte a character of a C string stands for. -/
def byteOf (c : Char) : Nat := c.toNat % 256

/-- `command[0]`, `command[1]`, `command[2]`, `command[3]`. -/
def firstFour (command : List Char) : List Char :=
  [charAt command 0, charAt command 1, charAt command 2, charAt command 3]

/-- The verbs spelled by the `case` labels of the `switch` in `ProcessCommand`. -/
def verbs : List (List Char) :=
  [['h', 'e', 'l', 'p'], ['c', 'l', 'e', 'a'], ['s', 's', 't', 'a'], ['s', 's', 't', 'o'],
   ['s', 'r', 's', 't'], ['i', 'n', 'f', 'o'], ['r', 's', 'd', 'o'], ['w', 's', 'd', 'o'],
   ['n', 'o', 'd', 'e'], ['c', 'm', 'd', ' '], ['s', 'y', 'n', '0'], ['s', 'y', 'n', '1'],
   ['s', 't', 'a', 't'], ['s', 'c', 'a', 'n'], ['w', 'a', 'i', 't'], ['g', 'o', 'o', 'o'],
   ['q', 'u', 'i', 't'], ['l', 'o', 'a', 'd']]

/-- The `case` constants of the `switch` in `ProcessCommand`, in source order. -/
def caseConstants : List Nat :=
  [cst_str4 'h' 'e' 'l' 'p', cst_str4 'c' 'l' 'e' 'a', cst_str4 's' 's' 't' 'a',
   cst_str4 's' 's' 't' 'o', cst_str4 's' 'r' 's' 't', cst_str4 'i' 'n' 'f' 'o',
   cst_str4 'r' 's' 'd' 'o', cst_str4 'w' 's' 'd' 'o', cst_str4 'n' 'o' 'd' 'e',
   cst_str4 'c' 'm' 'd' ' ', cst_str4 's' 'y' 'n' '0', cst_str4 's' 'y' 'n' '1',
   cst_str4 's' 't' 'a' 't', cst_str4 's' 'c' 'a' 'n', cst_str4 'w' 'a' 'i' 't',
   cst_str4 'g' 'o' 'o' 'o', cst_str4 'q' 'u' 'i' 't', cst_str4 'l' 'o' 'a' 'd']

/-- Is the event a call of an operation of the CANopen stack (SDO, NMT, SYNC, node state, bus
set-up)?  The mutex, the semaphores, the clock, sleeping and printing are not. -/
def Event.isStackOp : Event → Bool
  | .readNetworkDictCallback .. => true
  | .writeNetworkDictCallBack .. => true
  | .getReadResultNetworkDict _ => true
  | .getWriteResultNetworkDict _ => true
  | .closeSDOtransfer _ => true
  | .masterSendNMTstateChange .. => true
  | .stopSYNC => true
  | .startSYNC => true
  | .setStateOperational => true
  | .LoadCanDriver _ => true
  | .canOpen .. => true
  | .setNodeId _ => true
  | .StartTimerLoop => true
  | _ => false

/-! ## Theorems -/

@[simp] theorem emit_trace (s : Shell) (e : Event) : (s.emit e).trace = s.trace ++ [e] := rfl

@[simp] theorem emit_get_info_step (s : Shell) (e : Event) :
    (s.emit e).get_info_step = s.get_info_step := rfl

@[simp] theorem readRequests_append (a b : List Event) :
    readRequests (a ++ b) = readRequests a ++ readRequests b := by
  simp [readRequests]

/-- One callback of the sequencer at step `k` (1 ≤ k ≤ 3): the step becomes `k + 1` and
exactly the read of that step is submitted; at step 4 the step returns to 0 with no read. -/
theorem CheckReadInfoSDO_step (K : Consts) (c : Completion) (N : Nat) (s : Shell) :
    (s.get_info_step = 1 →
      (CheckReadInfoSDO K c N s).get_info_step = 2 ∧
      readRequests (CheckReadInfoSDO K c N s).trace =
        readRequests s.trace ++ [⟨N, 0x1018, 1, 0, .CheckReadInfoSDO, 0⟩]) ∧
    (s.get_info_step = 2 →
      (CheckReadInfoSDO K c N s).get_info_step = 3 ∧
      readRequests (CheckReadInfoSDO K c N s).trace =
        readRequests s.trace ++ [⟨N, 0x1018, 2, 0, .CheckReadInfoSDO, 0⟩]) ∧
    (s.get_info_step = 3 →
      (CheckReadInfoSDO K c N s).get_info_step = 4 ∧
      readRequests (CheckReadInfoSDO K c N s).trace =
        readRequests s.trace ++ [⟨N, 0x1018, 3, 0, .CheckReadInfoSDO, 0⟩]) ∧
    (s.get_info_step = 4 →
      (CheckReadInfoSDO K c N s).get_info_step = 0 ∧
      readRequests (CheckReadInfoSDO K c N s).trace = readRequests s.trace) := by
  refine ⟨?_, ?_, ?_, ?_⟩ <;> intro h <;>
    by_cases hc : c.result = K.SDO_FINISHED <;>
    simp [CheckReadInfoSDO, GetSlaveNodeInfo, h, hc, readRequests, Event.asRead, Shell.emit]

theorem GetSlaveNodeInfo_start (N : Nat) (s : Shell) (h : s.get_info_step = 0) :
    (GetSlaveNodeInfo N s).get_info_step = 1 ∧
    readRequests (GetSlaveNodeInfo N s).trace =
      readRequests s.trace ++ [⟨N, 0x1000, 0, 0, .CheckReadInfoSDO, 0⟩] := by
  simp [GetSlaveNodeInfo, h, readRequests, Event.asRead, Shell.emit]

/-- C1: from `get_info_step = 0`, `GetSlaveNodeInfo N` followed by four completion callbacks
`CheckReadInfoSDO N`, each with an arbitrary outcome (finished or failed), submits exactly the
reads (0x1000,0), (0x1018,1), (0x1018,2), (0x1018,3) to node `N`, in that order, and leaves
`get_info_step` at 0. -/
theorem C1_info_sequence (K : Consts) (N : Nat) (o1 o2 o3 o4 : Completion) (s : Shell)
    (h : s.get_info_step = 0) :
    readRequests (CheckReadInfoSDO K o4 N (CheckReadInfoSDO K o3 N (CheckReadInfoSDO K o2 N
        (CheckReadInfoSDO K o1 N (GetSlaveNodeInfo N s))))).trace =
      readRequests s.trace ++
        [⟨N, 0x1000, 0, 0, .CheckReadInfoSDO, 0⟩, ⟨N, 0x1018, 1, 0, .CheckReadInfoSDO, 0⟩,
         ⟨N, 0x1018, 2, 0, .CheckReadInfoSDO, 0⟩, ⟨N, 0x1018, 3, 0, .CheckReadInfoSDO, 0⟩] ∧
    (CheckReadInfoSDO K o4 N (CheckReadInfoSDO K o3 N (CheckReadInfoSDO K o2 N
        (CheckReadInfoSDO K o1 N (GetSlaveNodeInfo N s))))).get_info_step = 0 := by
  obtain ⟨h0, r0⟩ := GetSlaveNodeInfo_start N s h
  obtain ⟨h1, r1⟩ := (CheckReadInfoSDO_step K o1 N _).1 h0
  obtain ⟨h2, r2⟩ := (CheckReadInfoSDO_step K o2 N _).2.1 h1
  obtain ⟨h3, r3⟩ := (CheckReadInfoSDO_step K o3 N _).2.2.1 h2
  obtain ⟨h4, r4⟩ := (CheckReadInfoSDO_step K o4 N _).2.2.2 h3
  refine ⟨?_, h4⟩
  rw [r4, r3, r2, r1, r0]
  simp

/-- C1 at node 0x0A from the initial state, with a failed second read. -/
theorem C1_info_sequence_witness :
    Shell.init.get_info_step = 0 ∧
    readRequests (CheckReadInfoSDO ⟨1, 9⟩ ⟨1, 0, [1]⟩ 10 (CheckReadInfoSDO ⟨1, 9⟩ ⟨1, 0, [2]⟩ 10
        (CheckReadInfoSDO ⟨1, 9⟩ ⟨0x80, 0x06020000, []⟩ 10
        (CheckReadInfoSDO ⟨1, 9⟩ ⟨1, 0, [0x92, 0x01, 0x02, 0x00]⟩ 10
        (GetSlaveNodeInfo 10 Shell.init))))).trace =
      readRequests Shell.init.trace ++
        [⟨10, 0x1000, 0, 0, .CheckReadInfoSDO, 0⟩, ⟨10, 0x1018, 1, 0, .CheckReadInfoSDO, 0⟩,
         ⟨10, 0x1018, 2, 0, .CheckReadInfoSDO, 0⟩, ⟨10, 0x1018, 3, 0, .CheckReadInfoSDO, 0⟩] ∧
    (CheckReadInfoSDO ⟨1, 9⟩ ⟨1, 0, [1]⟩ 10 (CheckReadInfoSDO ⟨1, 9⟩ ⟨1, 0, [2]⟩ 10
        (CheckReadInfoSDO ⟨1, 9⟩ ⟨0x80, 0x06020000, []⟩ 10
        (CheckReadInfoSDO ⟨1, 9⟩ ⟨1, 0, [0x92, 0x01, 0x02, 0x00]⟩ 10
        (GetSlaveNodeInfo 10 Shell.init))))).get_info_step = 0 :=
  ⟨rfl, C1_info_sequence ⟨1, 9⟩ 10 ⟨1, 0, [0x92, 0x01, 0x02, 0x00]⟩ ⟨0x80, 0x06020000, []⟩
    ⟨1, 0, [2]⟩ ⟨1, 0, [1]⟩ Shell.init rfl⟩

theorem Read_sem_wait_ready (n : Nat) (b : Blocked) (s : Shell) (h : 0 < s.Read_sem) :
    Read_sem_wait n b s = ({ readWaits 1 s with Read_sem := s.Read_sem - 1 }, .ok) := by
  cases n <;> simp [Read_sem_wait, Shell.emit, readWaits, h]

theorem Read_sem_wait_blocked (n : Nat) (b : Blocked) (s : Shell) (h : s.Read_sem = 0) :
    Read_sem_wait n b s =
      match b with
      | .posted a =>
        ({ SDO_read_callback a.answer a.nodeid (readWaits (n + 1) s) with
            Read_sem := (SDO_read_callback a.answer a.nodeid (readWaits (n + 1) s)).Read_sem - 1 },
          .ok)
      | .timedOut => (readWaits (n + 1) s, .etimedout)
      | .failed => (readWaits (n + 1) s, .other) := by
  induction n generalizing s with
  | zero =>
    cases b <;> simp [Read_sem_wait, Shell.emit, readWaits, h]
  | succ k ih =>
    have h1 : (s.emit (.sem_timedwait .Read_sem)).Read_sem = 0 := h
    rw [Read_sem_wait]
    simp only [h1, lt_irrefl, if_false]
    rw [ih _ h1]
    cases b <;> simp [readWaits, Shell.emit, List.replicate_succ]

theorem Write_sem_wait_ready (n : Nat) (b : Blocked) (s : Shell) (h : 0 < s.Write_sem) :
    Write_sem_wait n b s = ({ writeWaits 1 s with Write_sem := s.Write_sem - 1 }, .ok) := by
  cases n <;> simp [Write_sem_wait, Shell.emit, writeWaits, h]

theorem Write_sem_wait_blocked (n : Nat) (b : Blocked) (s : Shell) (h : s.Write_sem = 0) :
    Write_sem_wait n b s =
      match b with
      | .posted a =>
        ({ SDO_write_callback a.answer a.nodeid (writeWaits (n + 1) s) with
            Write_sem :=
              (SDO_write_callback a.answer a.nodeid (writeWaits (n + 1) s)).Write_sem - 1 },
          .ok)
      | .timedOut => (writeWaits (n + 1) s, .etimedout)
      | .failed => (writeWaits (n + 1) s, .other) := by
  induction n generalizing s with
  | zero =>
    cases b <;> simp [Write_sem_wait, Shell.emit, writeWaits, h]
  | succ k ih =>
    have h1 : (s.emit (.sem_timedwait .Write_sem)).Write_sem = 0 := h
    rw [Write_sem_wait]
    simp only [h1, lt_irrefl, if_false]
    rw [ih _ h1]
    cases b <;> simp [writeWaits, Shell.emit, List.replicate_succ]

/-- C3 (amended): when the gate wait ends with a timeout, `SDO_read` / `SDO_write` print
"sem_timedwait() timed out" and return the value the submit call returned, which is the
value they return for the same submission when the wait succeeds. -/
theorem C3_timeout_returns_submit_value (K : Consts) (e e2 : BridgeEnv) (now now2 : Timespec)
    (nodeId index subIndex count dataType useBlockMode : Nat) (data : Payload) (s : Shell)
    (hclock : e.clock = some now) (hearly : e.early = []) (hto : e.blocked = .timedOut)
    (hclock2 : e2.clock = some now2) (hsubmit : e2.submit = e.submit)
    (hr : s.Read_sem = 0) (hw : s.Write_sem = 0) :
    (SDO_read K e nodeId index subIndex dataType useBlockMode s).value = some e.submit ∧
    (SDO_read K e nodeId index subIndex dataType useBlockMode s).value =
      (SDO_read K e2 nodeId index subIndex dataType useBlockMode s).value ∧
    (SDO_read K e nodeId index subIndex dataType useBlockMode s).state.trace.getLast? =
      some (.printf .timedOut) ∧
    (SDO_write K e nodeId index subIndex count dataType data useBlockMode s).value
      = some e.submit ∧
    (SDO_write K e nodeId index subIndex count dataType data useBlockMode s).value =
      (SDO_write K e2 nodeId index subIndex count dataType data useBlockMode s).value ∧
    (SDO_write K e nodeId index subIndex count dataType data useBlockMode s).state.trace.getLast? =
      some (.printf .timedOut) := by
  have hr1 : (SDO_read_deadline now [] ((SDO_read_issue nodeId index subIndex dataType
      useBlockMode s).emit .clock_gettime)).Read_sem = 0 := hr
  have hw1 : (SDO_write_deadline now [] ((SDO_write_issue nodeId index subIndex count dataType
      data useBlockMode s).emit .clock_gettime)).Write_sem = 0 := hw
  refine ⟨by simp [SDO_read, hclock, Run.value],
    by simp [SDO_read, hclock, hclock2, hsubmit, Run.value], ?_,
    by simp [SDO_write, hclock, Run.value],
    by simp [SDO_write, hclock, hclock2, hsubmit, Run.value], ?_⟩
  · simp only [SDO_read, hclock, Run.state, hearly, hto]
    rw [Read_sem_wait_blocked _ _ _ hr1]
    simp [SDO_read_check, Shell.emit]
  · simp only [SDO_write, hclock, Run.state, hearly, hto]
    rw [Write_sem_wait_blocked _ _ _ hw1]
    simp [SDO_write_check, Shell.emit]

/-- C3 (amended) at a read and a write of node 5 whose wait is interrupted twice and then
times out. -/
theorem C3_timeout_returns_submit_value_witness :
    (SDO_read ⟨1, 9⟩ ⟨0, some ⟨100, 700000000⟩, [], 2, .timedOut⟩
      5 0x1023 3 9 0 Shell.init).value = some 0 ∧
    (SDO_read ⟨1, 9⟩ ⟨0, some ⟨100, 700000000⟩, [], 2, .timedOut⟩
      5 0x1023 3 9 0 Shell.init).value =
      (SDO_read ⟨1, 9⟩ ⟨0, some ⟨100, 700000000⟩, [], 0, .posted ⟨5, ⟨1, 0, [65]⟩⟩⟩
        5 0x1023 3 9 0 Shell.init).value ∧
    (SDO_read ⟨1, 9⟩ ⟨0, some ⟨100, 700000000⟩, [], 2, .timedOut⟩
      5 0x1023 3 9 0 Shell.init).state.trace.getLast? = some (.printf .timedOut) ∧
    (SDO_write ⟨1, 9⟩ ⟨0, some ⟨100, 700000000⟩, [], 2, .timedOut⟩
      5 0x1023 1 2 9 (.text ['l', 's']) 0 Shell.init).value = some 0 ∧
    (SDO_write ⟨1, 9⟩ ⟨0, some ⟨100, 700000000⟩, [], 2, .timedOut⟩
      5 0x1023 1 2 9 (.text ['l', 's']) 0 Shell.init).value =
      (SDO_write ⟨1, 9⟩ ⟨0, some ⟨100, 700000000⟩, [], 0, .posted ⟨5, ⟨1, 0, [65]⟩⟩⟩
        5 0x1023 1 2 9 (.text ['l', 's']) 0 Shell.init).value ∧
    (SDO_write ⟨1, 9⟩ ⟨0, some ⟨100, 700000000⟩, [], 2, .timedOut⟩
      5 0x1023 1 2 9 (.text ['l', 's']) 0 Shell.init).state.trace.getLast? =
      some (.printf .timedOut) :=
  C3_timeout_returns_submit_value ⟨1, 9⟩ ⟨0, some ⟨100, 700000000⟩, [], 2, .timedOut⟩
    ⟨0, some ⟨100, 700000000⟩, [], 0, .posted ⟨5, ⟨1, 0, [65]⟩⟩⟩ ⟨100, 700000000⟩
    ⟨100, 700000000⟩ 5 0x1023 3 2 9 0 (.text ['l', 's']) Shell.init rfl rfl rfl rfl rfl rfl rfl

/-- C3 as stated fails: for one and the same submission, the call whose wait timed out and
the call whose wait succeeded return the same value. -/
theorem C3_counterexample :
    (.printf .timedOut) ∈ (SDO_read ⟨1, 9⟩ ⟨0, some ⟨100, 700000000⟩, [], 0, .timedOut⟩
      5 0x1023 3 9 0 Shell.init).state.trace ∧
    (.printf .timedOut) ∉ (SDO_read ⟨1, 9⟩
      ⟨0, some ⟨100, 700000000⟩, [], 0, .posted ⟨5, ⟨1, 0, [65]⟩⟩⟩
      5 0x1023 3 9 0 Shell.init).state.trace ∧
    (SDO_read ⟨1, 9⟩ ⟨0, some ⟨100, 700000000⟩, [], 0, .timedOut⟩
      5 0x1023 3 9 0 Shell.init).value =
    (SDO_read ⟨1, 9⟩ ⟨0, some ⟨100, 700000000⟩, [], 0, .posted ⟨5, ⟨1, 0, [65]⟩⟩⟩
      5 0x1023 3 9 0 Shell.init).value := by
  decide

@[simp] theorem closeCount_append (a b : List Event) :
    closeCount (a ++ b) = closeCount a + closeCount b := by
  simp [closeCount]

theorem closeCount_waits (k : Nat) (g : Gate) :
    closeCount (List.replicate k (.sem_timedwait g)) = 0 := by
  induction k with
  | zero => rfl
  | succ n ih => simp [List.replicate_succ, closeCount] at ih ⊢

theorem SDO_read_check_closeCount (K : Consts) (n : Nat) (w : WaitResult) (s : Shell) :
    closeCount (SDO_read_check K n w s).trace = closeCount s.trace := by
  cases w <;> simp only [SDO_read_check] <;> try split
  all_goals simp [Shell.emit, closeCount]

theorem SDO_write_check_closeCount (K : Consts) (n : Nat) (w : WaitResult) (s : Shell) :
    closeCount (SDO_write_check K n w s).trace = closeCount s.trace := by
  cases w <;> simp only [SDO_write_check] <;> try split
  all_goals simp [Shell.emit, closeCount]

theorem SDO_read_closeCount (K : Consts) (a : Arrival) (submit eintr : Nat) (b : Blocked)
    (now : Timespec) (nodeId index subIndex dataType useBlockMode : Nat) (s : Shell)
    (hr : s.Read_sem = 0) :
    closeCount (SDO_read K ⟨submit, some now, [a], eintr, b⟩
      nodeId index subIndex dataType useBlockMode s).state.trace = closeCount s.trace + 1 ∧
    closeCount (SDO_read K ⟨submit, some now, [], eintr, .posted a⟩
      nodeId index subIndex dataType useBlockMode s).state.trace = closeCount s.trace + 1 ∧
    closeCount (lateRead K ⟨submit, some now, [], eintr, .timedOut⟩ a
      nodeId index subIndex dataType useBlockMode s).trace = closeCount s.trace + 1 := by
  have hr1 : (SDO_read_deadline now [] ((SDO_read_issue nodeId index subIndex dataType
      useBlockMode s).emit .clock_gettime)).Read_sem = 0 := hr
  refine ⟨?_, ?_, ?_⟩
  · simp only [SDO_read, Run.state, SDO_read_check_closeCount]
    rw [Read_sem_wait_ready]
    · simp [readWaits, SDO_read_deadline, deliverRead, SDO_read_callback, SDO_read_issue,
        Shell.emit, closeCount]
    · simp [SDO_read_deadline, deliverRead, SDO_read_callback]
  · simp only [SDO_read, Run.state, SDO_read_check_closeCount]
    rw [Read_sem_wait_blocked _ _ _ hr1]
    simp [readWaits, SDO_read_deadline, deliverRead, SDO_read_callback, SDO_read_issue,
      Shell.emit, closeCount_waits]
    simp [closeCount]
  · simp only [lateRead, SDO_read, Run.state]
    rw [Read_sem_wait_blocked _ _ _ hr1]
    simp [readWaits, SDO_read_deadline, deliverRead, SDO_read_callback, SDO_read_issue,
      SDO_read_check, Shell.emit, closeCount_waits]
    simp [closeCount]

theorem SDO_write_closeCount (K : Consts) (a : Arrival) (submit eintr : Nat) (b : Blocked)
    (now : Timespec) (nodeId index subIndex count dataType : Nat) (data : Payload)
    (useBlockMode : Nat) (s : Shell) (hw : s.Write_sem = 0) :
    closeCount (SDO_write K ⟨submit, some now, [a], eintr, b⟩
      nodeId index subIndex count dataType data useBlockMode s).state.trace
        = closeCount s.trace + 1 ∧
    closeCount (SDO_write K ⟨submit, some now, [], eintr, .posted a⟩
      nodeId index subIndex count dataType data useBlockMode s).state.trace
        = closeCount s.trace + 1 ∧
    closeCount (lateWrite K ⟨submit, some now, [], eintr, .timedOut⟩ a
      nodeId index subIndex count dataType data useBlockMode s).trace
        = closeCount s.trace + 1 := by
  have hw1 : (SDO_write_deadline now [] ((SDO_write_issue nodeId index subIndex count dataType
      data useBlockMode s).emit .clock_gettime)).Write_sem = 0 := hw
  refine ⟨?_, ?_, ?_⟩
  · simp only [SDO_write, Run.state, SDO_write_check_closeCount]
    rw [Write_sem_wait_ready]
    · simp [writeWaits, SDO_write_deadline, deliverWrite, SDO_write_callback, SDO_write_issue,
        Shell.emit, closeCount]
    · simp [SDO_write_deadline, deliverWrite, SDO_write_callback]
  · simp only [SDO_write, Run.state, SDO_write_check_closeCount]
    rw [Write_sem_wait_blocked _ _ _ hw1]
    simp [writeWaits, SDO_write_deadline, deliverWrite, SDO_write_callback, SDO_write_issue,
      Shell.emit, closeCount_waits]
    simp [closeCount]
  · simp only [lateWrite, SDO_write, Run.state]
    rw [Write_sem_wait_blocked _ _ _ hw1]
    simp [writeWaits, SDO_write_deadline, deliverWrite, SDO_write_callback, SDO_write_issue,
      SDO_write_check, Shell.emit, closeCount_waits]
    simp [closeCount]

/-- C5: a transfer submitted through `SDO_read` or `SDO_write` whose completion callback is
invoked exactly once (before the wait, during the blocked wait, or after the wait timed out;
with any status) has `closeSDOtransfer` called exactly once, counting the calls of the bridge
function and of the callback together. -/
theorem C5_closed_exactly_once (K : Consts) (a : Arrival) (submit eintr : Nat) (b : Blocked)
    (now : Timespec) (nodeId index subIndex count dataType useBlockMode : Nat) (data : Payload)
    (s : Shell) (hr : s.Read_sem = 0) (hw : s.Write_sem = 0) :
    (closeCount (SDO_read K ⟨submit, some now, [a], eintr, b⟩
      nodeId index subIndex dataType useBlockMode s).state.trace = closeCount s.trace + 1 ∧
    closeCount (SDO_read K ⟨submit, some now, [], eintr, .posted a⟩
      nodeId index subIndex dataType useBlockMode s).state.trace = closeCount s.trace + 1 ∧
    closeCount (lateRead K ⟨submit, some now, [], eintr, .timedOut⟩ a
      nodeId index subIndex dataType useBlockMode s).trace = closeCount s.trace + 1) ∧
    (closeCount (SDO_write K ⟨submit, some now, [a], eintr, b⟩
      nodeId index subIndex count dataType data useBlockMode s).state.trace
        = closeCount s.trace + 1 ∧
    closeCount (SDO_write K ⟨submit, some now, [], eintr, .posted a⟩
      nodeId index subIndex count dataType data useBlockMode s).state.trace
        = closeCount s.trace + 1 ∧
    closeCount (lateWrite K ⟨submit, some now, [], eintr, .timedOut⟩ a
      nodeId index subIndex count dataType data useBlockMode s).trace
        = closeCount s.trace + 1) :=
  ⟨SDO_read_closeCount K a submit eintr b now nodeId index subIndex dataType useBlockMode s hr,
   SDO_write_closeCount K a submit eintr b now nodeId index subIndex count dataType data
     useBlockMode s hw⟩

/-- C5 at a read of node 5 whose wait times out and whose callback, an abort, runs late. -/
theorem C5_closed_exactly_once_witness :
    closeCount (lateRead ⟨1, 9⟩ ⟨0, some ⟨100, 700000000⟩, [], 1, .timedOut⟩
      ⟨5, ⟨0x80, 0x06020000, []⟩⟩ 5 0x1023 3 9 0 Shell.init).trace
        = closeCount Shell.init.trace + 1 :=
  (C5_closed_exactly_once ⟨1, 9⟩ ⟨5, ⟨0x80, 0x06020000, []⟩⟩ 0 1 .timedOut ⟨100, 700000000⟩
    5 0x1023 3 2 9 0 (.text ['l', 's']) Shell.init rfl rfl).1.2.2

/-- The case constants of the `switch` in `ProcessCommand`. -/
theorem verb_keys :
    cst_str4 'h' 'e' 'l' 'p' = 1886152040 ∧ cst_str4 'c' 'l' 'e' 'a' = 1634036835 ∧
    cst_str4 's' 's' 't' 'a' = 1635021683 ∧ cst_str4 's' 's' 't' 'o' = 1869902707 ∧
    cst_str4 's' 'r' 's' 't' = 1953722995 ∧ cst_str4 'i' 'n' 'f' 'o' = 1868983913 ∧
    cst_str4 'r' 's' 'd' 'o' = 1868854130 ∧ cst_str4 'w' 's' 'd' 'o' = 1868854135 ∧
    cst_str4 'n' 'o' 'd' 'e' = 1701080942 ∧ cst_str4 'c' 'm' 'd' ' ' = 543452515 ∧
    cst_str4 's' 'y' 'n' '0' = 812546419 ∧ cst_str4 's' 'y' 'n' '1' = 829323635 ∧
    cst_str4 's' 't' 'a' 't' = 1952543859 ∧ cst_str4 's' 'c' 'a' 'n' = 1851876211 ∧
    cst_str4 'w' 'a' 'i' 't' = 1953063287 ∧ cst_str4 'g' 'o' 'o' 'o' = 1869573991 ∧
    cst_str4 'q' 'u' 'i' 't' = 1953068401 ∧ cst_str4 'l' 'o' 'a' 'd' = 1684107116 := by
  decide

theorem scanDigits_count (base : Nat) (l : List Char) (w : Option Nat) (acc cnt : Nat) :
    cnt ≤ (scanDigits base l w acc cnt).2.1 := by
  induction l generalizing w acc cnt with
  | nil => simp [scanDigits]
  | cons c cs ih =>
    unfold scanDigits
    split
    · split
      · exact le_trans (Nat.le_succ cnt) (ih _ _ _)
      · simp
    · simp

theorem isdigit_facts (d : Char) (hd : isdigit d = true) :
    isspace d = false ∧ d ≠ '-' ∧ d ≠ '+' ∧ digitVal 10 d = some (d.toNat - 48) := by
  simp only [isdigit, Bool.and_eq_true, decide_eq_true_eq] at hd
  refine ⟨?_, ?_, ?_, ?_⟩
  · simp only [isspace, Bool.or_eq_false_iff, Bool.and_eq_false_iff, decide_eq_false_iff_not]
    omega
  · rintro rfl; simp at hd
  · rintro rfl; simp at hd
  · have h1 : hexVal d = some (d.toNat - 48) := by simp [hexVal, hd]
    simp only [digitVal, h1]
    have : d.toNat - 48 < 10 := by omega
    simp [this]

theorem scanDec_digit (d : Char) (rest : List Char) (hd : isdigit d = true) :
    ∃ v r, scanDec (d :: rest) = .ok v r := by
  obtain ⟨h1, h2, h3, h4⟩ := isdigit_facts d hd
  have hn : ∃ p r, scanNumber 10 none (d :: rest) = .ok p r := by
    simp only [scanNumber, skipws, h1, h2, h3, or_self, if_false, Bool.false_eq_true, widthLeft,
      and_true]
    by_cases h0 : d = '0'
    · simp only [h0, if_true]
      cases rest with
      | nil => exact ⟨_, _, rfl⟩
      | cons x cs2 => simp
    · simp only [h0, if_false]
      have hc := scanDigits_count 10 rest (widthDec none) (0 * 10 + (d.toNat - 48)) 1
      have h5 : scanDigits 10 (d :: rest) none 0 0 =
          scanDigits 10 rest (widthDec none) (0 * 10 + (d.toNat - 48)) (0 + 1) := by
        rw [scanDigits]; simp [widthLeft, h4]
      rw [h5]
      have h6 : (scanDigits 10 rest (widthDec none) (0 * 10 + (d.toNat - 48)) (0 + 1)).2.1 ≠ 0 := by
        simp only [Nat.zero_add]; omega
      rw [if_neg h6]
      exact ⟨_, _, rfl⟩
  obtain ⟨p, r, hp⟩ := hn
  obtain ⟨neg, v⟩ := p
  simp only [scanDec, hp]
  exact ⟨_, _, rfl⟩

/-- A command well-formed for the format `"wait#%d"` starts with `wait#`. -/
theorem wait_shape (command : List Char) (h : (sscanf command fmt_wait).ret = 1) :
    ∃ rest, command = 'w' :: 'a' :: 'i' :: 't' :: '#' :: rest := by
  rcases command with _ | ⟨c1, _ | ⟨c2, _ | ⟨c3, _ | ⟨c4, _ | ⟨c5, rest⟩⟩⟩⟩⟩
  · simp [sscanf, fmt_wait, lits, sscanfLoop, stopAt] at h
  · by_cases h1 : c1 = 'w' <;>
      simp [sscanf, fmt_wait, lits, sscanfLoop, stopAt, h1] at h
  · by_cases h1 : c1 = 'w' <;> by_cases h2 : c2 = 'a' <;>
      simp [sscanf, fmt_wait, lits, sscanfLoop, stopAt, h1, h2] at h
  · by_cases h1 : c1 = 'w' <;> by_cases h2 : c2 = 'a' <;> by_cases h3 : c3 = 'i' <;>
      simp [sscanf, fmt_wait, lits, sscanfLoop, stopAt, h1, h2, h3] at h
  · by_cases h1 : c1 = 'w' <;> by_cases h2 : c2 = 'a' <;> by_cases h3 : c3 = 'i' <;>
      by_cases h4 : c4 = 't' <;>
      simp [sscanf, fmt_wait, lits, sscanfLoop, stopAt, h1, h2, h3, h4] at h
  · by_cases h1 : c1 = 'w' <;> by_cases h2 : c2 = 'a' <;> by_cases h3 : c3 = 'i' <;>
      by_cases h4 : c4 = 't' <;> by_cases h5 : c5 = '#' <;>
      first
      | exact ⟨rest, by rw [h1, h2, h3, h4, h5]⟩
      | simp [sscanf, fmt_wait, lits, sscanfLoop, stopAt, h1, h2, h3, h4, h5] at h

/-- Every `wait#` followed by a decimal digit is well-formed for `"wait#%d"`. -/
theorem wait_digit_wellformed (d : Char) (rest : List Char) (hd : isdigit d = true) :
    (sscanf ('w' :: 'a' :: 'i' :: 't' :: '#' :: d :: rest) fmt_wait).ret = 1 := by
  obtain ⟨v, r, hv⟩ := scanDec_digit d rest hd
  simp [sscanf, fmt_wait, lits, sscanfLoop, hv, stopAt]

/-- `ProcessCommand` on a command well-formed for `"wait#%d"`. -/
theorem wait_command (W : World) (command : List Char) (s : Shell)
    (hwf : (sscanf command fmt_wait).ret = 1) :
    ProcessCommand W command s =
      .ret 0 (SleepFunction ((sscanf command fmt_wait).int 0 0)
        ((s.emit .EnterMutex).emit .LeaveMutex)) := by
  obtain ⟨rest, rfl⟩ := wait_shape command hwf
  obtain ⟨k1, k2, k3, k4, k5, k6, k7, k8, k9, k10, k11, k12, k13, k14, k15, k16, k17, k18⟩ :=
    verb_keys
  simp only [ProcessCommand, charAt, List.getD_cons_zero, List.getD_cons_succ, k1, k2, k3, k4,
    k5, k6, k7, k8, k9, k10, k11, k12, k13, k14, k15, k16, k17, k18, hwf]
  simp

theorem releasedAtBlocking_noEnter (t : List Event) (h : Event.EnterMutex ∉ t) :
    releasedAtBlocking true t = true := by
  induction t with
  | nil => rfl
  | cons e es ih =>
    have h1 : Event.EnterMutex ∉ es := fun hm => h (List.mem_cons_of_mem _ hm)
    have h2 : e ≠ Event.EnterMutex := fun he => h (he ▸ List.mem_cons_self _ _)
    cases e <;> simp_all [releasedAtBlocking]

theorem deliverRead_trace (as : List Arrival) (s : Shell) :
    ∃ t, (deliverRead as s).trace = s.trace ++ t ∧ Event.EnterMutex ∉ t := by
  induction as generalizing s with
  | nil => exact ⟨[], by simp [deliverRead], by simp⟩
  | cons a as ih =>
    obtain ⟨t, ht, hn⟩ := ih (SDO_read_callback a.answer a.nodeid s)
    refine ⟨[.getReadResultNetworkDict a.nodeid, .closeSDOtransfer a.nodeid,
      .sem_post .Read_sem] ++ t, ?_, ?_⟩
    · show (deliverRead as (SDO_read_callback a.answer a.nodeid s)).trace = _
      rw [ht]
      simp [SDO_read_callback, Shell.emit]
    · simp [hn]

theorem deliverWrite_trace (as : List Arrival) (s : Shell) :
    ∃ t, (deliverWrite as s).trace = s.trace ++ t ∧ Event.EnterMutex ∉ t := by
  induction as generalizing s with
  | nil => exact ⟨[], by simp [deliverWrite], by simp⟩
  | cons a as ih =>
    obtain ⟨t, ht, hn⟩ := ih (SDO_write_callback a.answer a.nodeid s)
    refine ⟨[.getWriteResultNetworkDict a.nodeid, .closeSDOtransfer a.nodeid,
      .sem_post .Write_sem] ++ t, ?_, ?_⟩
    · show (deliverWrite as (SDO_write_callback a.answer a.nodeid s)).trace = _
      rw [ht]
      simp [SDO_write_callback, Shell.emit]
    · simp [hn]

theorem Read_sem_wait_trace (n : Nat) (b : Blocked) (s : Shell) :
    ∃ t, (Read_sem_wait n b s).1.trace = s.trace ++ t ∧ Event.EnterMutex ∉ t := by
  by_cases h : 0 < s.Read_sem
  · rw [Read_sem_wait_ready _ _ _ h]
    exact ⟨[.sem_timedwait .Read_sem], by simp [readWaits], by simp⟩
  · rw [Read_sem_wait_blocked _ _ _ (by omega)]
    cases b with
    | posted a =>
      exact ⟨List.replicate (n + 1) (.sem_timedwait .Read_sem) ++
        [.getReadResultNetworkDict a.nodeid, .closeSDOtransfer a.nodeid, .sem_post .Read_sem],
        by simp [readWaits, SDO_read_callback, Shell.emit], by simp [List.mem_replicate]⟩
    | timedOut =>
      exact ⟨List.replicate (n + 1) (.sem_timedwait .Read_sem), by simp [readWaits],
        by simp [List.mem_replicate]⟩
    | failed =>
      exact ⟨List.replicate (n + 1) (.sem_timedwait .Read_sem), by simp [readWaits],
        by simp [List.mem_replicate]⟩

theorem Write_sem_wait_trace (n : Nat) (b : Blocked) (s : Shell) :
    ∃ t, (Write_sem_wait n b s).1.trace = s.trace ++ t ∧ Event.EnterMutex ∉ t := by
  by_cases h : 0 < s.Write_sem
  · rw [Write_sem_wait_ready _ _ _ h]
    exact ⟨[.sem_timedwait .Write_sem], by simp [writeWaits], by simp⟩
  · rw [Write_sem_wait_blocked _ _ _ (by omega)]
    cases b with
    | posted a =>
      exact ⟨List.replicate (n + 1) (.sem_timedwait .Write_sem) ++
        [.getWriteResultNetworkDict a.nodeid, .closeSDOtransfer a.nodeid, .sem_post .Write_sem],
        by simp [writeWaits, SDO_write_callback, Shell.emit], by simp [List.mem_replicate]⟩
    | timedOut =>
      exact ⟨List.replicate (n + 1) (.sem_timedwait .Write_sem), by simp [writeWaits],
        by simp [List.mem_replicate]⟩
    | failed =>
      exact ⟨List.replicate (n + 1) (.sem_timedwait .Write_sem), by simp [writeWaits],
        by simp [List.mem_replicate]⟩

theorem SDO_read_check_trace (K : Consts) (n : Nat) (w : WaitResult) (s : Shell) :
    ∃ t, (SDO_read_check K n w s).trace = s.trace ++ t ∧ Event.EnterMutex ∉ t := by
  cases w with
  | etimedout => exact ⟨[.printf .timedOut], rfl, by simp⟩
  | other => exact ⟨[.printf .perrorSemTimedwait], rfl, by simp⟩
  | ok =>
    simp only [SDO_read_check]
    split
    · exact ⟨[.printf (.resultFailed n s.SDO_read_callback_abortCode)], rfl, by simp⟩
    · exact ⟨[], (List.append_nil _).symm, by simp⟩

theorem SDO_write_check_trace (K : Consts) (n : Nat) (w : WaitResult) (s : Shell) :
    ∃ t, (SDO_write_check K n w s).trace = s.trace ++ t ∧ Event.EnterMutex ∉ t := by
  cases w with
  | etimedout => exact ⟨[.printf .timedOut], rfl, by simp⟩
  | other => exact ⟨[.printf .perrorSemTimedwait], rfl, by simp⟩
  | ok =>
    simp only [SDO_write_check]
    split
    · exact ⟨[.printf (.resultFailed n s.SDO_write_callback_abortCode)], rfl, by simp⟩
    · exact ⟨[], (List.append_nil _).symm, by simp⟩

/-- The events of one call of `SDO_read`: entry, submission, `LeaveMutex`, then events none of
which is `EnterMutex`. -/
theorem SDO_read_trace (K : Consts) (e : BridgeEnv)
    (nodeId index subIndex dataType useBlockMode : Nat) (s : Shell) :
    ∃ t, (SDO_read K e nodeId index subIndex dataType useBlockMode s).state.trace =
      s.trace ++ [.SDO_read,
        .readNetworkDictCallback nodeId index subIndex dataType .SDO_read_callback useBlockMode,
        .LeaveMutex] ++ t ∧ Event.EnterMutex ∉ t := by
  cases hc : e.clock with
  | none =>
    exact ⟨[.clock_gettime, .printf .perrorClockGettime, .exitFailure],
      by simp [SDO_read, hc, Run.state, SDO_read_issue, Shell.emit], by simp⟩
  | some now =>
    simp only [SDO_read, hc, Run.state]
    obtain ⟨t3, h3, n3⟩ := SDO_read_check_trace K nodeId
      (Read_sem_wait e.eintr e.blocked (SDO_read_deadline now e.early
        ((SDO_read_issue nodeId index subIndex dataType useBlockMode s).emit .clock_gettime))).2
      (Read_sem_wait e.eintr e.blocked (SDO_read_deadline now e.early
        ((SDO_read_issue nodeId index subIndex dataType useBlockMode s).emit .clock_gettime))).1
    obtain ⟨t2, h2, n2⟩ := Read_sem_wait_trace e.eintr e.blocked (SDO_read_deadline now e.early
        ((SDO_read_issue nodeId index subIndex dataType useBlockMode s).emit .clock_gettime))
    obtain ⟨t1, h1, n1⟩ := deliverRead_trace e.early
      { (SDO_read_issue nodeId index subIndex dataType useBlockMode s).emit .clock_gettime with
        Read_sem_ts := addWait now }
    refine ⟨[.clock_gettime] ++ t1 ++ t2 ++ t3, ?_, by simp [n1, n2, n3]⟩
    rw [h3, h2]
    simp only [SDO_read_deadline]
    rw [h1]
    simp [SDO_read_issue, Shell.emit]

theorem SDO_write_trace (K : Consts) (e : BridgeEnv)
    (nodeId index subIndex count dataType : Nat) (data : Payload) (useBlockMode : Nat)
    (s : Shell) :
    ∃ t, (SDO_write K e nodeId index subIndex count dataType data useBlockMode s).state.trace =
      s.trace ++ [.SDO_write,
        .writeNetworkDictCallBack nodeId index subIndex count dataType data .SDO_write_callback
          useBlockMode,
        .LeaveMutex] ++ t ∧ Event.EnterMutex ∉ t := by
  cases hc : e.clock with
  | none =>
    exact ⟨[.clock_gettime, .printf .perrorClockGettime, .exitFailure],
      by simp [SDO_write, hc, Run.state, SDO_write_issue, Shell.emit], by simp⟩
  | some now =>
    simp only [SDO_write, hc, Run.state]
    obtain ⟨t3, h3, n3⟩ := SDO_write_check_trace K nodeId
      (Write_sem_wait e.eintr e.blocked (SDO_write_deadline now e.early
        ((SDO_write_issue nodeId index subIndex count dataType data useBlockMode s).emit
          .clock_gettime))).2
      (Write_sem_wait e.eintr e.blocked (SDO_write_deadline now e.early
        ((SDO_write_issue nodeId index subIndex count dataType data useBlockMode s).emit
          .clock_gettime))).1
    obtain ⟨t2, h2, n2⟩ := Write_sem_wait_trace e.eintr e.blocked (SDO_write_deadline now
      e.early ((SDO_write_issue nodeId index subIndex count dataType data useBlockMode s).emit
        .clock_gettime))
    obtain ⟨t1, h1, n1⟩ := deliverWrite_trace e.early
      { (SDO_write_issue nodeId index subIndex count dataType data useBlockMode s).emit
          .clock_gettime with Write_sem_ts := addWait now }
    refine ⟨[.clock_gettime] ++ t1 ++ t2 ++ t3, ?_, by simp [n1, n2, n3]⟩
    rw [h3, h2]
    simp only [SDO_write_deadline]
    rw [h1]
    simp [SDO_write_issue, Shell.emit]

/-- C6: for every command that is well-formed for `wait#S` (the `sscanf` with `"wait#%d"`
returns 1), `ProcessCommand` does `EnterMutex`, `LeaveMutex`, `SleepFunction` in this order
and nothing else; in every call of `SDO_read` and `SDO_write`, a `LeaveMutex` precedes every
`sem_timedwait` with no `EnterMutex` in between.  So the flow that took the lock does not hold
it at a sleep or at a gate wait. -/
theorem C6_lock_released_before_blocking (W : World) (K : Consts) (e : BridgeEnv)
    (command : List Char) (nodeId index subIndex count dataType useBlockMode : Nat)
    (data : Payload) (s : Shell) (hwf : (sscanf command fmt_wait).ret = 1) :
    (ProcessCommand W command s).state.trace =
      s.trace ++ [.EnterMutex, .LeaveMutex,
        .SleepFunction ((sscanf command fmt_wait).int 0 0)] ∧
    (∃ t, (SDO_read K e nodeId index subIndex dataType useBlockMode s).state.trace
        = s.trace ++ t ∧ releasedAtBlocking false t = true) ∧
    (∃ t, (SDO_write K e nodeId index subIndex count dataType data useBlockMode s).state.trace
        = s.trace ++ t ∧ releasedAtBlocking false t = true) := by
  refine ⟨?_, ?_, ?_⟩
  · rw [wait_command W command s hwf]
    simp [Run.state, SleepFunction, Shell.emit]
  · obtain ⟨t, ht, hn⟩ := SDO_read_trace K e nodeId index subIndex dataType useBlockMode s
    refine ⟨_, by rw [ht, List.append_assoc], ?_⟩
    simpa [releasedAtBlocking] using releasedAtBlocking_noEnter t hn
  · obtain ⟨t, ht, hn⟩ := SDO_write_trace K e nodeId index subIndex count dataType data
      useBlockMode s
    refine ⟨_, by rw [ht, List.append_assoc], ?_⟩
    simpa [releasedAtBlocking] using releasedAtBlocking_noEnter t hn

/-- C6 at `wait#5`: the trace is `EnterMutex`, `LeaveMutex`, `SleepFunction 5`. -/
theorem C6_lock_released_before_blocking_witness :
    (ProcessCommand ⟨⟨1, 9⟩, ⟨0, 0, 0, [], 0, 0⟩,
        ⟨0, some ⟨100, 700000000⟩, [], 1, .posted ⟨5, ⟨1, 0, [65]⟩⟩⟩,
        ⟨0, some ⟨100, 700000000⟩, [], 1, .posted ⟨5, ⟨1, 0, [65]⟩⟩⟩, true⟩
      ['w', 'a', 'i', 't', '#', '5'] Shell.init).state.trace =
      Shell.init.trace ++ [.EnterMutex, .LeaveMutex,
        .SleepFunction ((sscanf ['w', 'a', 'i', 't', '#', '5'] fmt_wait).int 0 0)] ∧
    (sscanf ['w', 'a', 'i', 't', '#', '5'] fmt_wait).int 0 0 = 5 :=
  ⟨(C6_lock_released_before_blocking ⟨⟨1, 9⟩, ⟨0, 0, 0, [], 0, 0⟩,
        ⟨0, some ⟨100, 700000000⟩, [], 1, .posted ⟨5, ⟨1, 0, [65]⟩⟩⟩,
        ⟨0, some ⟨100, 700000000⟩, [], 1, .posted ⟨5, ⟨1, 0, [65]⟩⟩⟩, true⟩ ⟨1, 9⟩
      ⟨0, some ⟨100, 700000000⟩, [], 1, .posted ⟨5, ⟨1, 0, [65]⟩⟩⟩
      ['w', 'a', 'i', 't', '#', '5'] 5 0x1023 3 2 9 0
      (.text ['l', 's']) Shell.init (by decide)).1, by decide⟩

/-- C7 fails on the code: on the command `cmd 05,ls` the lock count is 1 on entry to
`SDO_write` but 0 on entry to `SDO_read` (the `cmd ` branch does not take the lock again after
`SDO_write` released it), while the default branch of the main loop, which calls
`EnterMutex` before each of the two, has count 1 at both, and the `node` branch has count 1
at its single call. -/
theorem C7_cmd_enters_SDO_read_unlocked :
    lockCountAtCalls 0 (ProcessCommand ⟨⟨1, 9⟩, ⟨0, 0, 0, [], 0, 0⟩,
        ⟨0, some ⟨100, 700000000⟩, [], 0, .posted ⟨5, ⟨1, 0, []⟩⟩⟩,
        ⟨0, some ⟨101, 300000000⟩, [], 0, .posted ⟨5, ⟨1, 0, [65]⟩⟩⟩, true⟩
      ['c', 'm', 'd', ' ', '0', '5', ',', 'l', 's'] Shell.init).state.trace = [1, 0] ∧
    lockCountAtCalls 0 (mainLoopBody ⟨⟨1, 9⟩, ⟨0, 0, 0, [], 0, 0⟩,
        ⟨0, some ⟨100, 700000000⟩, [], 0, .posted ⟨3, ⟨1, 0, []⟩⟩⟩,
        ⟨0, some ⟨101, 300000000⟩, [], 0, .posted ⟨3, ⟨1, 0, [65]⟩⟩⟩, true⟩
      0 ['l', 's'] Shell.init).state.trace = [1, 1] ∧
    lockCountAtCalls 0 (ProcessCommand ⟨⟨1, 9⟩, ⟨0, 0, 0, [], 0, 0⟩,
        ⟨0, some ⟨100, 700000000⟩, [], 0, .posted ⟨5, ⟨1, 0, []⟩⟩⟩,
        ⟨0, some ⟨101, 300000000⟩, [], 0, .posted ⟨5, ⟨1, 0, [65]⟩⟩⟩, true⟩
      ['n', 'o', 'd', 'e', ' ', '0', '5'] Shell.init).state.trace = [1] := by
  decide

/-- C8 fails on the code: on `node zz` the `sscanf` stores nothing, yet a write is submitted
to node `(UNS8)NodeID` and `CurrentNode` becomes `NodeID`, where `NodeID` is whatever the
uninitialised local holds (`j`); on `info#zz` the sequencer step goes from 0 to 1 and a read
is submitted to the node id the uninitialised local of `ExtractNodeId` holds. -/
theorem C8_node_zz_changes_state (j : Int) :
    sscanf ['n', 'o', 'd', 'e', ' ', 'z', 'z'] fmt_node = ⟨0, []⟩ ∧
    (ProcessCommand ⟨⟨1, 9⟩, ⟨j, j, 0, [], 0, 0⟩,
        ⟨0, some ⟨100, 700000000⟩, [], 0, .timedOut⟩,
        ⟨0, some ⟨101, 300000000⟩, [], 0, .timedOut⟩, true⟩
      ['n', 'o', 'd', 'e', ' ', 'z', 'z'] Shell.init).state.CurrentNode = j ∧
    writeRequests (ProcessCommand ⟨⟨1, 9⟩, ⟨j, j, 0, [], 0, 0⟩,
        ⟨0, some ⟨100, 700000000⟩, [], 0, .timedOut⟩,
        ⟨0, some ⟨101, 300000000⟩, [], 0, .timedOut⟩, true⟩
      ['n', 'o', 'd', 'e', ' ', 'z', 'z'] Shell.init).state.trace =
      [⟨toUNS8 j, 0x1024, 0, 1, 0, .word 0, .SDO_write_callback, 0⟩] ∧
    sscanf ['z', 'z'] fmt_nodeid = ⟨0, []⟩ ∧
    (ProcessCommand ⟨⟨1, 9⟩, ⟨j, j, 0, [], 0, 0⟩,
        ⟨0, some ⟨100, 700000000⟩, [], 0, .timedOut⟩,
        ⟨0, some ⟨101, 300000000⟩, [], 0, .timedOut⟩, true⟩
      ['i', 'n', 'f', 'o', '#', 'z', 'z'] Shell.init).state.get_info_step = 1 ∧
    readRequests (ProcessCommand ⟨⟨1, 9⟩, ⟨j, j, 0, [], 0, 0⟩,
        ⟨0, some ⟨100, 700000000⟩, [], 0, .timedOut⟩,
        ⟨0, some ⟨101, 300000000⟩, [], 0, .timedOut⟩, true⟩
      ['i', 'n', 'f', 'o', '#', 'z', 'z'] Shell.init).state.trace =
      [⟨toUNS8 j, 0x1000, 0, 0, .CheckReadInfoSDO, 0⟩] := by
  refine ⟨by decide, rfl, rfl, by decide, rfl, rfl⟩

/-- C9 fails on the code: the `'c'` case scans the command with the format `"w%x"`; a command
that starts with `c` cannot match the leading `w`, `sscanf` returns 0, and no write is
submitted, whatever follows the `c`. -/
theorem C9_control_word_never_written (W : World) (data : List Char) (s : Shell) :
    sscanf ('c' :: data) fmt_focus_c = ⟨0, []⟩ ∧
    ProcessFocusedCommand W ('c' :: data) s = .ret 0 ((s.emit .EnterMutex).emit .LeaveMutex) ∧
    writeRequests (ProcessFocusedCommand W ('c' :: data) s).state.trace
      = writeRequests s.trace := by
  have h : sscanf ('c' :: data) fmt_focus_c = ⟨0, []⟩ := by
    simp [sscanf, fmt_focus_c, sscanfLoop, stopAt]
  have h2 : ProcessFocusedCommand W ('c' :: data) s
      = .ret 0 ((s.emit .EnterMutex).emit .LeaveMutex) := by
    simp [ProcessFocusedCommand, charAt, h]
  refine ⟨h, h2, ?_⟩
  rw [h2]
  simp [Run.state, Shell.emit, writeRequests, Event.asWrite]

theorem hexVal_lt (c : Char) : (hexVal c).getD 0 < 16 := by
  unfold hexVal
  split_ifs <;> simp <;> omega

theorem isxdigit_facts (d : Char) (hd : isxdigit d = true) :
    isspace d = false ∧ d ≠ '-' ∧ d ≠ '+' ∧ d ≠ 'x' ∧ d ≠ 'X' ∧
    digitVal 16 d = some ((hexVal d).getD 0) := by
  have hv := hexVal_lt d
  refine ⟨?_, ?_, ?_, ?_, ?_, ?_⟩
  · simp only [isxdigit, hexVal] at hd
    simp only [isspace, Bool.or_eq_false_iff, Bool.and_eq_false_iff, decide_eq_false_iff_not]
    split_ifs at hd <;> first | omega | simp at hd
  · rintro rfl; revert hd; decide
  · rintro rfl; revert hd; decide
  · rintro rfl; revert hd; decide
  · rintro rfl; revert hd; decide
  · simp only [digitVal]
    cases h : hexVal d with
    | none => simp [isxdigit, h] at hd
    | some v =>
      rw [h] at hv
      simp only [Option.getD_some] at hv ⊢
      simp [hv]

theorem foldl_hex_lt (ds : List Char) (acc B : Nat) (h : acc < B) :
    ds.foldl (fun acc c => acc * 16 + (hexVal c).getD 0) acc < B * 16 ^ ds.length := by
  induction ds generalizing acc B with
  | nil => simpa using h
  | cons d ds ih =>
    have hv := hexVal_lt d
    have h2 : acc * 16 + (hexVal d).getD 0 < B * 16 := by omega
    have := ih (acc * 16 + (hexVal d).getD 0) (B * 16) h2
    simpa [List.foldl, pow_succ, mul_assoc, mul_comm 16] using this

theorem scanDigits_hex (ds rest : List Char) (acc cnt : Nat)
    (h : ∀ c ∈ ds, isxdigit c = true) :
    scanDigits 16 (ds ++ rest) (some ds.length) acc cnt =
      (ds.foldl (fun acc c => acc * 16 + (hexVal c).getD 0) acc, cnt + ds.length, rest) := by
  induction ds generalizing acc cnt with
  | nil => cases rest <;> simp [scanDigits, widthLeft]
  | cons d ds ih =>
    obtain ⟨_, _, _, _, _, h6⟩ := isxdigit_facts d (h d (List.mem_cons_self _ _))
    have ih2 := ih (acc * 16 + (hexVal d).getD 0) (cnt + 1)
      (fun c hc => h c (List.mem_cons_of_mem _ hc))
    simp only [List.cons_append, scanDigits, List.length_cons, widthLeft, Nat.zero_lt_succ,
      decide_True, if_true, h6, widthDec, Nat.add_sub_cancel, List.append_eq]
    rw [ih2, Nat.add_assoc, Nat.add_comm 1]
    rfl

theorem scanNumber_hex (d : Char) (ds rest : List Char)
    (h : ∀ c ∈ d :: ds, isxdigit c = true) :
    scanNumber 16 (some (ds.length + 1)) (d :: ds ++ rest) = .ok (false, hexValue (d :: ds)) rest := by
  obtain ⟨h1, h2, h3, _, _, h6⟩ := isxdigit_facts d (h d (List.mem_cons_self _ _))
  have hds : ∀ c ∈ ds, isxdigit c = true := fun c hc => h c (List.mem_cons_of_mem _ hc)
  simp only [scanNumber, List.cons_append, skipws, h1, h2, h3, or_self, if_false,
    Bool.false_eq_true, widthLeft, Nat.zero_lt_succ, decide_True, and_true, widthDec,
    Nat.add_sub_cancel, List.append_eq, decide_False]
  by_cases h0 : d = '0'
  · subst h0
    simp only [if_true]
    cases ds with
    | nil =>
      cases rest with
      | nil => rfl
      | cons x xs => simp [scanDigits, widthLeft, hexValue, hexVal]
    | cons e es =>
      obtain ⟨_, _, _, h4, h5, _⟩ := isxdigit_facts e (hds e (List.mem_cons_self _ _))
      have := scanDigits_hex (e :: es) rest 0 1 hds
      simp only [List.cons_append, List.length_cons] at this
      simp only [List.cons_append, List.length_cons, Nat.zero_lt_succ, decide_True, h4, h5,
        or_self, and_false, if_false, this, Nat.add_sub_cancel]
      simp [hexValue, hexVal]
  · simp only [h0, if_false]
    have := scanDigits_hex (d :: ds) rest 0 0 h
    simp only [List.cons_append, List.length_cons] at this
    rw [this]
    simp [hexValue]

theorem scanHex_hex (d : Char) (ds rest : List Char) (h : ∀ c ∈ d :: ds, isxdigit c = true)
    (hlen : ds.length + 1 ≤ 7) :
    scanHex (some (ds.length + 1)) (d :: ds ++ rest) = .ok (hexValue (d :: ds) : Nat) rest := by
  have hb : hexValue (d :: ds) < 1 * 16 ^ (d :: ds).length := foldl_hex_lt (d :: ds) 0 1 (by omega)
  have hb2 : hexValue (d :: ds) < 268435456 := by
    refine lt_of_lt_of_le hb ?_
    rw [one_mul]
    calc 16 ^ (d :: ds).length ≤ 16 ^ 7 := Nat.pow_le_pow_right (by omega) (by simpa using hlen)
      _ = 268435456 := by norm_num
  simp only [scanHex, scanNumber_hex d ds rest h]
  have h1 : ¬ hexValue (d :: ds) ≥ 18446744073709551616 := by omega
  have h2 : hexValue (d :: ds) % 4294967296 = hexValue (d :: ds) := Nat.mod_eq_of_lt (by omega)
  simp only [h1, if_false, Bool.false_eq_true, toInt32, h2]
  rw [if_pos (by omega)]

theorem toUNS8_cast (v : Nat) (h : v < 256) : toUNS8 (v : Int) = v := by
  unfold toUNS8; omega

theorem toUNS16_cast (v : Nat) (h : v < 65536) : toUNS16 (v : Int) = v := by
  unfold toUNS16; omega

/-- C10: for all hexadecimal digits `NN`, `IIII`, `SS`, with `CurrentNode = NN`,
`ProcessFocusedCommand` on `rIIII,SS` and `ProcessCommand` on `rsdo#NN,IIII,SS` submit the
same single read request: node `NN`, index `IIII`, sub-index `SS`, data type 0, callback
`CheckReadSDO`, block mode 0. -/
theorem C10_focused_read_same_request (W : World) (n1 n2 i1 i2 i3 i4 s1 s2 : Char) (s : Shell)
    (hn : ∀ c ∈ [n1, n2], isxdigit c = true)
    (hi : ∀ c ∈ [i1, i2, i3, i4], isxdigit c = true)
    (hs : ∀ c ∈ [s1, s2], isxdigit c = true)
    (hcur : s.CurrentNode = (hexValue [n1, n2] : Nat)) :
    readRequests (ProcessFocusedCommand W ['r', i1, i2, i3, i4, ',', s1, s2] s).state.trace =
      readRequests s.trace ++
        [⟨hexValue [n1, n2], hexValue [i1, i2, i3, i4], hexValue [s1, s2], 0, .CheckReadSDO, 0⟩] ∧
    readRequests (ProcessCommand W
        ['r', 's', 'd', 'o', '#', n1, n2, ',', i1, i2, i3, i4, ',', s1, s2] s).state.trace =
      readRequests s.trace ++
        [⟨hexValue [n1, n2], hexValue [i1, i2, i3, i4], hexValue [s1, s2], 0, .CheckReadSDO, 0⟩] := by
  have en : ∀ rest, scanHex (some 2) (n1 :: n2 :: rest) = .ok (hexValue [n1, n2] : Nat) rest :=
    fun rest => scanHex_hex n1 [n2] rest hn (by simp)
  have ei : ∀ rest, scanHex (some 4) (i1 :: i2 :: i3 :: i4 :: rest)
      = .ok (hexValue [i1, i2, i3, i4] : Nat) rest :=
    fun rest => scanHex_hex i1 [i2, i3, i4] rest hi (by simp)
  have es : ∀ rest, scanHex (some 2) (s1 :: s2 :: rest) = .ok (hexValue [s1, s2] : Nat) rest :=
    fun rest => scanHex_hex s1 [s2] rest hs (by simp)
  have bn : hexValue [n1, n2] < 256 :=
    lt_of_lt_of_eq (foldl_hex_lt [n1, n2] 0 1 (by omega)) (by norm_num)
  have bi : hexValue [i1, i2, i3, i4] < 65536 :=
    lt_of_lt_of_eq (foldl_hex_lt [i1, i2, i3, i4] 0 1 (by omega)) (by norm_num)
  have bs : hexValue [s1, s2] < 256 :=
    lt_of_lt_of_eq (foldl_hex_lt [s1, s2] 0 1 (by omega)) (by norm_num)
  have hz : toUNS8 0 = 0 := rfl
  have hf : sscanf ['r', i1, i2, i3, i4, ',', s1, s2] fmt_focus_r =
      ⟨2, [.int (hexValue [i1, i2, i3, i4] : Nat), .int (hexValue [s1, s2] : Nat)]⟩ := by
    simp [sscanf, fmt_focus_r, sscanfLoop, ei, es, stopAt]
  have hr : sscanf ['r', 's', 'd', 'o', '#', n1, n2, ',', i1, i2, i3, i4, ',', s1, s2] fmt_rsdo =
      ⟨3, [.int (hexValue [n1, n2] : Nat), .int (hexValue [i1, i2, i3, i4] : Nat),
        .int (hexValue [s1, s2] : Nat)]⟩ := by
    simp [sscanf, fmt_rsdo, lits, sscanfLoop, en, ei, es, stopAt]
  obtain ⟨k1, k2, k3, k4, k5, k6, k7, k8, k9, k10, k11, k12, k13, k14, k15, k16, k17, k18⟩ :=
    verb_keys
  constructor
  · simp [ProcessFocusedCommand, charAt, hf, Scanned.int, ReadSDOEntry, Shell.emit, Run.state,
      readRequests, Event.asRead, hcur, toUNS8_cast _ bn, toUNS8_cast _ bs, toUNS16_cast _ bi,
      hz]
  · simp only [ProcessCommand, charAt, List.getD_cons_zero, List.getD_cons_succ, k1, k2, k3, k4,
      k5, k6, k7, k8, k9, k10, k11, k12, k13, k14, k15, k16, k17, k18]
    simp [ReadDeviceEntry, hr, Scanned.int, Shell.emit, Run.state,
      readRequests, Event.asRead, toUNS8_cast _ bn, toUNS8_cast _ bs, toUNS16_cast _ bi,
      hz]

/-- C10 at `node 0A`, `r1018,01` against `rsdo#0A,1018,01`. -/
theorem C10_focused_read_same_request_witness :
    readRequests (ProcessFocusedCommand ⟨⟨1, 9⟩, ⟨0, 0, 0, [], 0, 0⟩,
        ⟨0, some ⟨100, 700000000⟩, [], 0, .timedOut⟩,
        ⟨0, some ⟨101, 300000000⟩, [], 0, .timedOut⟩, true⟩
      ['r', '1', '0', '1', '8', ',', '0', '1']
      { Shell.init with CurrentNode := 10 }).state.trace =
    readRequests (ProcessCommand ⟨⟨1, 9⟩, ⟨0, 0, 0, [], 0, 0⟩,
        ⟨0, some ⟨100, 700000000⟩, [], 0, .timedOut⟩,
        ⟨0, some ⟨101, 300000000⟩, [], 0, .timedOut⟩, true⟩
      ['r', 's', 'd', 'o', '#', '0', 'A', ',', '1', '0', '1', '8', ',', '0', '1']
      { Shell.init with CurrentNode := 10 }).state.trace :=
  (C10_focused_read_same_request ⟨⟨1, 9⟩, ⟨0, 0, 0, [], 0, 0⟩,
        ⟨0, some ⟨100, 700000000⟩, [], 0, .timedOut⟩,
        ⟨0, some ⟨101, 300000000⟩, [], 0, .timedOut⟩, true⟩
      '0' 'A' '1' '0' '1' '8' '0' '1' { Shell.init with CurrentNode := 10 }
      (by decide) (by decide) (by decide) (by decide)).1.trans
  (C10_focused_read_same_request ⟨⟨1, 9⟩, ⟨0, 0, 0, [], 0, 0⟩,
        ⟨0, some ⟨100, 700000000⟩, [], 0, .timedOut⟩,
        ⟨0, some ⟨101, 300000000⟩, [], 0, .timedOut⟩, true⟩
      '0' 'A' '1' '0' '1' '8' '0' '1' { Shell.init with CurrentNode := 10 }
      (by decide) (by decide) (by decide) (by decide)).2.symm

/-- The deadline arithmetic on a clock reading whose `tv_sec` is a `time_t` other than the
largest one: 500 ms are added and the result is normalised. -/
theorem addWait_spec (sec nsec : Int) (h0 : 0 ≤ nsec) (h1 : nsec < 1000000000)
    (hlo : -9223372036854775808 ≤ sec) (hhi : sec < 9223372036854775807) :
    (addWait ⟨sec, nsec⟩).tv_sec * 1000000000 + (addWait ⟨sec, nsec⟩).tv_nsec
      = sec * 1000000000 + nsec + 500000000 ∧
    0 ≤ (addWait ⟨sec, nsec⟩).tv_nsec ∧ (addWait ⟨sec, nsec⟩).tv_nsec < 1000000000 := by
  unfold addWait
  simp only [WAIT_NS, wrap64]
  split <;> refine ⟨?_, ?_, ?_⟩ <;> (try dsimp only) <;> omega

/-- At the largest `time_t` with a carry the increment of `tv_sec` wraps to the smallest. -/
theorem addWait_at_largest :
    addWait ⟨9223372036854775807, 500000000⟩ = ⟨-9223372036854775808, 0⟩ := by
  decide

theorem deliverRead_ts (as : List Arrival) (s : Shell) :
    (deliverRead as s).Read_sem_ts = s.Read_sem_ts := by
  induction as generalizing s with
  | nil => rfl
  | cons a as ih =>
    show (deliverRead as (SDO_read_callback a.answer a.nodeid s)).Read_sem_ts = _
    rw [ih]; rfl

theorem deliverWrite_ts (as : List Arrival) (s : Shell) :
    (deliverWrite as s).Write_sem_ts = s.Write_sem_ts := by
  induction as generalizing s with
  | nil => rfl
  | cons a as ih =>
    show (deliverWrite as (SDO_write_callback a.answer a.nodeid s)).Write_sem_ts = _
    rw [ih]; rfl

theorem Read_sem_wait_ts (n : Nat) (b : Blocked) (s : Shell) :
    (Read_sem_wait n b s).1.Read_sem_ts = s.Read_sem_ts := by
  by_cases h : 0 < s.Read_sem
  · rw [Read_sem_wait_ready _ _ _ h]; rfl
  · rw [Read_sem_wait_blocked _ _ _ (by omega)]
    cases b <;> rfl

theorem Write_sem_wait_ts (n : Nat) (b : Blocked) (s : Shell) :
    (Write_sem_wait n b s).1.Write_sem_ts = s.Write_sem_ts := by
  by_cases h : 0 < s.Write_sem
  · rw [Write_sem_wait_ready _ _ _ h]; rfl
  · rw [Write_sem_wait_blocked _ _ _ (by omega)]
    cases b <;> rfl

theorem SDO_read_check_ts (K : Consts) (n : Nat) (w : WaitResult) (s : Shell) :
    (SDO_read_check K n w s).Read_sem_ts = s.Read_sem_ts := by
  cases w <;> simp only [SDO_read_check] <;> try split
  all_goals rfl

theorem SDO_write_check_ts (K : Consts) (n : Nat) (w : WaitResult) (s : Shell) :
    (SDO_write_check K n w s).Write_sem_ts = s.Write_sem_ts := by
  cases w <;> simp only [SDO_write_check] <;> try split
  all_goals rfl

theorem SDO_read_deadline_eq (K : Consts) (e : BridgeEnv) (now : Timespec)
    (nodeId index subIndex dataType useBlockMode : Nat) (s : Shell)
    (hclock : e.clock = some now) :
    (SDO_read K e nodeId index subIndex dataType useBlockMode s).state.Read_sem_ts
      = addWait now := by
  simp only [SDO_read, hclock, Run.state, SDO_read_check_ts, Read_sem_wait_ts,
    SDO_read_deadline, deliverRead_ts]

theorem SDO_write_deadline_eq (K : Consts) (e : BridgeEnv) (now : Timespec)
    (nodeId index subIndex count dataType : Nat) (data : Payload) (useBlockMode : Nat)
    (s : Shell) (hclock : e.clock = some now) :
    (SDO_write K e nodeId index subIndex count dataType data useBlockMode s).state.Write_sem_ts
      = addWait now := by
  simp only [SDO_write, hclock, Run.state, SDO_write_check_ts, Write_sem_wait_ts,
    SDO_write_deadline, deliverWrite_ts]

/-- C12: for every clock reading `(sec, nsec)` with `0 ≤ nsec < 1000000000` whose `sec` is a
`time_t` other than the largest one, the deadline `SDO_read` leaves in `Read_sem_ts` and
`SDO_write` leaves in `Write_sem_ts` satisfies
`sec' * 10^9 + nsec' = sec * 10^9 + nsec + 500000000` and `0 ≤ nsec' < 10^9`. -/
theorem C12_deadline_is_500ms_later (K : Consts) (e : BridgeEnv) (sec nsec : Int)
    (nodeId index subIndex count dataType useBlockMode : Nat) (data : Payload) (s : Shell)
    (hclock : e.clock = some ⟨sec, nsec⟩) (h0 : 0 ≤ nsec) (h1 : nsec < 1000000000)
    (hlo : -9223372036854775808 ≤ sec) (hhi : sec < 9223372036854775807) :
    ((SDO_read K e nodeId index subIndex dataType useBlockMode s).state.Read_sem_ts.tv_sec
        * 1000000000
      + (SDO_read K e nodeId index subIndex dataType useBlockMode s).state.Read_sem_ts.tv_nsec
      = sec * 1000000000 + nsec + 500000000 ∧
    0 ≤ (SDO_read K e nodeId index subIndex dataType useBlockMode s).state.Read_sem_ts.tv_nsec ∧
    (SDO_read K e nodeId index subIndex dataType useBlockMode s).state.Read_sem_ts.tv_nsec
      < 1000000000) ∧
    ((SDO_write K e nodeId index subIndex count dataType data useBlockMode
        s).state.Write_sem_ts.tv_sec * 1000000000
      + (SDO_write K e nodeId index subIndex count dataType data useBlockMode
        s).state.Write_sem_ts.tv_nsec
      = sec * 1000000000 + nsec + 500000000 ∧
    0 ≤ (SDO_write K e nodeId index subIndex count dataType data useBlockMode
        s).state.Write_sem_ts.tv_nsec ∧
    (SDO_write K e nodeId index subIndex count dataType data useBlockMode
        s).state.Write_sem_ts.tv_nsec < 1000000000) := by
  obtain ⟨a1, a2, a3⟩ := addWait_spec sec nsec h0 h1 hlo hhi
  rw [SDO_read_deadline_eq K e ⟨sec, nsec⟩ _ _ _ _ _ s hclock,
    SDO_write_deadline_eq K e ⟨sec, nsec⟩ _ _ _ _ _ _ _ s hclock]
  exact ⟨⟨a1, a2, a3⟩, ⟨a1, a2, a3⟩⟩

/-- C12 at the clock reading (100 s, 700000000 ns): the carry into `tv_sec` is taken. -/
theorem C12_deadline_is_500ms_later_witness :
    (SDO_read ⟨1, 9⟩ ⟨0, some ⟨100, 700000000⟩, [], 1, .posted ⟨5, ⟨1, 0, [65]⟩⟩⟩
        5 0x1023 3 9 0 Shell.init).state.Read_sem_ts.tv_sec * 1000000000
      + (SDO_read ⟨1, 9⟩ ⟨0, some ⟨100, 700000000⟩, [], 1, .posted ⟨5, ⟨1, 0, [65]⟩⟩⟩
        5 0x1023 3 9 0 Shell.init).state.Read_sem_ts.tv_nsec
      = 100 * 1000000000 + 700000000 + 500000000 ∧
    0 ≤ (SDO_read ⟨1, 9⟩ ⟨0, some ⟨100, 700000000⟩, [], 1, .posted ⟨5, ⟨1, 0, [65]⟩⟩⟩
        5 0x1023 3 9 0 Shell.init).state.Read_sem_ts.tv_nsec ∧
    (SDO_read ⟨1, 9⟩ ⟨0, some ⟨100, 700000000⟩, [], 1, .posted ⟨5, ⟨1, 0, [65]⟩⟩⟩
        5 0x1023 3 9 0 Shell.init).state.Read_sem_ts.tv_nsec < 1000000000 :=
  (C12_deadline_is_500ms_later ⟨1, 9⟩
    ⟨0, some ⟨100, 700000000⟩, [], 1, .posted ⟨5, ⟨1, 0, [65]⟩⟩⟩ 100 700000000
    5 0x1023 3 2 9 0 (.text ['l', 's']) Shell.init rfl (by decide) (by decide) (by decide)
    (by decide)).1

/-- A bitwise or is at least its right operand. -/
theorem right_le_or (x y : Nat) : y ≤ x ||| y :=
  Nat.le_of_testBit fun i h => by simp [h]

theorem toUNS32_schar (c : Char) :
    toUNS32 (schar c) = if byteOf c < 128 then byteOf c else 4294967040 + byteOf c := by
  have hb : c.toNat % 256 < 256 := Nat.mod_lt _ (by omega)
  unfold toUNS32 schar byteOf
  split <;> omega

theorem toUNS32_schar_shift (c : Char) :
    toUNS32 (schar c * 256) =
      if byteOf c < 128 then 256 * byteOf c else 4294901760 + 256 * byteOf c := by
  have hb : c.toNat % 256 < 256 := Nat.mod_lt _ (by omega)
  unfold toUNS32 schar byteOf
  split <;> omega

/-- Or-ing a sign-extended char into a 32-bit value whose low byte is 0: a non-negative char
is added, a negative one sets bits 8..31. -/
theorem or_step (x u b : Nat) (hx : x % 256 = 0) (hx2 : x < 4294967296)
    (hu : u = if b < 128 then b else 4294967040 + b) (hb : b < 256) :
    (b < 128 ∧ x ||| u = x + b) ∨
    (128 ≤ b ∧ 4294967040 ≤ x ||| u ∧ x ||| u < 4294967296) := by
  by_cases h : b < 128
  · left
    refine ⟨h, ?_⟩
    rw [hu, if_pos h]
    have h1 : x = 2 ^ 8 * (x / 256) := by omega
    have h2 := Nat.mul_add_lt_is_or (show b < 2 ^ 8 by omega) (x / 256)
    rw [← h1] at h2
    exact h2.symm
  · right
    rw [if_neg h] at hu
    refine ⟨by omega, ?_, ?_⟩
    · have := right_le_or x u
      omega
    · have e32 : (2 : Nat) ^ 32 = 4294967296 := by norm_num
      have h3 := @Nat.or_lt_two_pow x u 32 (by rw [e32]; exact hx2) (by rw [e32]; omega)
      rw [e32] at h3
      exact h3

/-- The key of four chars either has bit 31 set (some char is negative) or is the
little-endian packing of four bytes below 128. -/
theorem cst_str4_cases (c1 c2 c3 c4 : Char) :
    2147483648 ≤ cst_str4 c1 c2 c3 c4 ∨
    (cst_str4 c1 c2 c3 c4
        = byteOf c1 + 256 * byteOf c2 + 65536 * byteOf c3 + 16777216 * byteOf c4 ∧
      byteOf c1 < 128 ∧ byteOf c2 < 128 ∧ byteOf c3 < 128 ∧ byteOf c4 < 128) := by
  have hb1 : byteOf c1 < 256 := Nat.mod_lt _ (by omega)
  have hb2 : byteOf c2 < 256 := Nat.mod_lt _ (by omega)
  have hb3 : byteOf c3 < 256 := Nat.mod_lt _ (by omega)
  have hb4 : byteOf c4 < 256 := Nat.mod_lt _ (by omega)
  have e8 : (2 : Nat) ^ 8 = 256 := by norm_num
  have ha := toUNS32_schar_shift c4
  simp only [cst_str4, Nat.zero_or, Nat.shiftLeft_eq, e8]
  generalize toUNS32 (schar c4 * 256) = A at ha ⊢
  have s3 := or_step A (toUNS32 (schar c3)) (byteOf c3) (by split at ha <;> omega)
    (by split at ha <;> omega) (toUNS32_schar c3) hb3
  generalize A ||| toUNS32 (schar c3) = B at s3 ⊢
  have s2 := or_step (B * 256 % 4294967296) (toUNS32 (schar c2)) (byteOf c2) (by omega)
    (by omega) (toUNS32_schar c2) hb2
  generalize B * 256 % 4294967296 ||| toUNS32 (schar c2) = C at s2 ⊢
  have s1 := or_step (C * 256 % 4294967296) (toUNS32 (schar c1)) (byteOf c1) (by omega)
    (by omega) (toUNS32_schar c1) hb1
  generalize C * 256 % 4294967296 ||| toUNS32 (schar c1) = key at s1 ⊢
  split at ha <;> omega

theorem verbs_bytes :
    verbs.map (List.map byteOf) =
      [[104, 101, 108, 112], [99, 108, 101, 97], [115, 115, 116, 97], [115, 115, 116, 111],
       [115, 114, 115, 116], [105, 110, 102, 111], [114, 115, 100, 111], [119, 115, 100, 111],
       [110, 111, 100, 101], [99, 109, 100, 32], [115, 121, 110, 48], [115, 121, 110, 49],
       [115, 116, 97, 116], [115, 99, 97, 110], [119, 97, 105, 116], [103, 111, 111, 111],
       [113, 117, 105, 116], [108, 111, 97, 100]] := by
  decide

/-- A key below 2^31 determines the four bytes it was computed from. -/
theorem key_bytes (c1 c2 c3 c4 : Char) (k : Nat) (hk : cst_str4 c1 c2 c3 c4 = k)
    (hlt : k < 2147483648) :
    [byteOf c1, byteOf c2, byteOf c3, byteOf c4] =
      [k % 256, k / 256 % 256, k / 65536 % 256, k / 16777216] := by
  rcases cst_str4_cases c1 c2 c3 c4 with hge | ⟨hsum, l1, l2, l3, l4⟩
  · omega
  · have e1 : byteOf c1 = k % 256 := by omega
    have e2 : byteOf c2 = k / 256 % 256 := by omega
    have e3 : byteOf c3 = k / 65536 % 256 := by omega
    have e4 : byteOf c4 = k / 16777216 := by omega
    rw [e1, e2, e3, e4]

/-- The case constants are the keys of the verbs. -/
theorem caseConstants_eq :
    caseConstants = verbs.map fun v => cst_str4 (charAt v 0) (charAt v 1) (charAt v 2)
      (charAt v 3) := by
  decide

theorem key_not_case (command : List Char)
    (h : (firstFour command).map byteOf ∉ verbs.map (List.map byteOf)) :
    cst_str4 (charAt command 0) (charAt command 1) (charAt command 2) (charAt command 3)
      ∉ caseConstants := by
  obtain ⟨k1, k2, k3, k4, k5, k6, k7, k8, k9, k10, k11, k12, k13, k14, k15, k16, k17, k18⟩ :=
    verb_keys
  rw [verbs_bytes] at h
  have conv : (firstFour command).map byteOf =
      [byteOf (charAt command 0), byteOf (charAt command 1), byteOf (charAt command 2),
        byteOf (charAt command 3)] := rfl
  rw [conv] at h
  intro hmem
  simp only [caseConstants, k1, k2, k3, k4, k5, k6, k7, k8, k9, k10, k11, k12, k13, k14, k15,
    k16, k17, k18, List.mem_cons, List.mem_nil_iff, or_false, List.not_mem_nil] at hmem
  rcases hmem with hk | hk | hk | hk | hk | hk | hk | hk | hk | hk | hk | hk | hk | hk | hk |
    hk | hk | hk <;>
  · rw [key_bytes _ _ _ _ _ hk (by norm_num)] at h
    exact h (by decide)

/-- C11: for every command whose first four characters, taken as bytes (so also bytes above
127, which `cst_str4` sign-extends), do not spell one of the verbs of the `switch`, the key
equals none of the case constants, `ProcessCommand` does `EnterMutex`, `help_menu`,
`LeaveMutex` and nothing else, so it calls no operation of the protocol stack, and it returns
0, which is neither `QUIT` nor `INIT_ERR`. -/
theorem C11_unknown_verb_prints_help (W : World) (command : List Char) (s : Shell)
    (h : (firstFour command).map byteOf ∉ verbs.map (List.map byteOf)) :
    cst_str4 (charAt command 0) (charAt command 1) (charAt command 2) (charAt command 3)
      ∉ caseConstants ∧
    ProcessCommand W command s
      = .ret 0 (((s.emit .EnterMutex).emit .help_menu).emit .LeaveMutex) ∧
    (ProcessCommand W command s).state.trace.filter Event.isStackOp
      = s.trace.filter Event.isStackOp ∧
    (ProcessCommand W command s).value = some 0 ∧ (0 : Int) ≠ QUIT ∧ (0 : Int) ≠ INIT_ERR := by
  have hkey := key_not_case command h
  have hrun : ProcessCommand W command s
      = .ret 0 (((s.emit .EnterMutex).emit .help_menu).emit .LeaveMutex) := by
    have hk := hkey
    simp only [caseConstants, List.mem_cons, List.mem_nil_iff, or_false, not_or,
      List.not_mem_nil] at hk
    obtain ⟨n1, n2, n3, n4, n5, n6, n7, n8, n9, n10, n11, n12, n13, n14, n15, n16, n17, n18⟩ := hk
    simp only [ProcessCommand, n1, n2, n3, n4, n5, n6, n7, n8, n9, n10, n11, n12, n13, n14, n15,
      n16, n17, n18, if_false, help_menu]
  refine ⟨hkey, hrun, ?_, ?_, by decide, by decide⟩
  · rw [hrun]
    simp [Run.state, Shell.emit, Event.isStackOp]
  · rw [hrun]; rfl

/-- C11 at the command whose bytes are 0xE8 (`h` with the top bit set), `e`, `l`, `p`. -/
theorem C11_unknown_verb_prints_help_witness :
    ProcessCommand ⟨⟨1, 9⟩, ⟨0, 0, 0, [], 0, 0⟩,
        ⟨0, some ⟨100, 700000000⟩, [], 0, .timedOut⟩,
        ⟨0, some ⟨101, 300000000⟩, [], 0, .timedOut⟩, true⟩
      [Char.ofNat 232, 'e', 'l', 'p'] Shell.init
      = .ret 0 (((Shell.init.emit .EnterMutex).emit .help_menu).emit .LeaveMutex) :=
  (C11_unknown_verb_prints_help ⟨⟨1, 9⟩, ⟨0, 0, 0, [], 0, 0⟩,
        ⟨0, some ⟨100, 700000000⟩, [], 0, .timedOut⟩,
        ⟨0, some ⟨101, 300000000⟩, [], 0, .timedOut⟩, true⟩
      [Char.ofNat 232, 'e', 'l', 'p'] Shell.init (by decide)).2.1

@[simp] theorem failureLines_append (a b : List Event) :
    failureLines (a ++ b) = failureLines a ++ failureLines b := by
  simp [failureLines]

end CANOpenShell
